import Mathlib

/-!
# Verification of the xgraph core (graph compiler / rule-matching engine)

Shallow embedding of the core of the `vinaes/xgraph` repository:

* the data model (`src/types/schemas.ts`),
* the connection rule checker (`src/utils/connectionRules.ts`),
* the validation engine (`src/utils/validation.ts`, `validateGraph` et al.),
* the forward compiler (`src/utils/storage.ts`, `exportConfig` et al.),
* the reverse compiler (`src/utils/validation.ts`, `importXrayConfig`),
* the traffic simulator (`runSimulation` and its rule matchers).

Modelling conventions (JavaScript semantics made explicit):

* JS strings are Lean `String`s; string truthiness (`s && ...`) is `s ≠ ""`.
* Optional record fields / `undefined` are `Option` values; `a || b` on such
  values is `Option.orElse` composed with string/number truthiness.
* Node and edge ids (uuidv4 in the source) are modelled as `Nat`: the source
  relies only on ids being distinct and comparable for equality, which the
  counter-based fresh-id supply used by the reverse compiler guarantees.
* `JSON.stringify` / `JSON.parse` on the wire documents are modelled as the
  identity on the structured document type `XrayConfigDoc`: the documents the
  forward compiler produces and the reverse compiler consumes share one shape.
* `Math.random()` draws are an explicit input: a list of natural numbers, one
  per draw; a draw `r` over `n` candidates selects index `r % n`, which ranges
  over exactly the indices `Math.floor(Math.random() * n)` can produce.
* The `regexp:` domain-rule branch delegates to the browser's RegExp engine;
  that engine is an explicit parameter `rx : String → String → Bool` of the
  simulator (the engine is fixed across invocations of the simulator).
* React-Flow node positions (and the purely cosmetic `autoLayout` pass, which
  only writes positions) are omitted from the node model: no core computation
  reads them.
-/

/-! ## JavaScript-style string and option helpers -/

/-- Kernel-reducible character-list versions of the string operations the
source uses (`toLowerCase`, `split`, `trim`, ...): the corresponding core
`String` functions do not reduce inside `decide`. -/
def jsToLower (s : String) : String := String.mk (s.data.map Char.toLower)

def jsToUpper (s : String) : String := String.mk (s.data.map Char.toUpper)

/-- `s.startsWith(p)`. -/
def strStartsWith (s p : String) : Bool := p.data.isPrefixOf s.data

/-- `s.endsWith(p)`. -/
def strEndsWith (s p : String) : Bool := p.data.reverse.isPrefixOf s.data.reverse

/-- `s.includes(c)` for a single character. -/
def strContainsChar (s : String) (c : Char) : Bool := s.data.contains c

/-- `s.trim()`. -/
def jsTrim (s : String) : String :=
  String.mk (((s.data.dropWhile Char.isWhitespace).reverse.dropWhile
    Char.isWhitespace).reverse)

/-- `s.slice(n)` (drop the first `n` characters). -/
def strDrop (s : String) (n : Nat) : String := String.mk (s.data.drop n)

def splitCharAux (sep : Char) : List Char → List Char → List String
  | [], acc => [String.mk acc.reverse]
  | c :: rest, acc =>
      if c = sep then String.mk acc.reverse :: splitCharAux sep rest []
      else splitCharAux sep rest (c :: acc)

/-- `s.split(sep)` for a single-character separator. -/
def splitChar (sep : Char) (s : String) : List String :=
  splitCharAux sep s.data []

/-- Digit-string parse (`String.toNat?`). -/
def strToNat (s : String) : Option Nat :=
  if s.data.isEmpty || !s.data.all Char.isDigit then Option.none
  else some (s.data.foldl (fun acc c => acc * 10 + (c.toNat - '0'.toNat)) 0)

/-- `parts.join(sep)`. -/
def joinStr (sep : String) : List String → String
  | [] => ""
  | [x] => x
  | x :: rest => x ++ sep ++ joinStr sep rest

/-- JS string truthiness: the empty string is falsy. -/
def jsStr (s : String) : Bool := s ≠ ""

/-- `x || undefined` for an optional string field: an absent or empty string
becomes `none`. -/
def normStr (o : Option String) : Option String :=
  match o with
  | none => none
  | some s => if s = "" then none else some s

/-- `x || d` for an optional string with a string default. -/
def jsOrStr (o : Option String) (d : String) : String :=
  match o with
  | none => d
  | some s => if s = "" then d else s

/-- `x || d` for an optional number (0 is falsy). -/
def jsOrNat (o : Option Nat) (d : Nat) : Nat :=
  match o with
  | none => d
  | some n => if n = 0 then d else n

/-- `x || undefined` for an optional number field (0 is falsy). -/
def normNat (o : Option Nat) : Option Nat :=
  match o with
  | none => none
  | some n => if n = 0 then none else some n

/-- A nonempty-list guard: `xs && xs.length > 0 ? some xs : none`. -/
def normList {α : Type} (o : Option (List α)) : Option (List α) :=
  match o with
  | none => none
  | some l => if l.isEmpty then none else some l

/-- Infix test on character lists. -/
def listInfixOf : List Char → List Char → Bool
  | needle, [] => needle.isEmpty
  | needle, h :: t => needle.isPrefixOf (h :: t) || listInfixOf needle t

/-- Substring test, JS `String.prototype.includes`. -/
def strContains (hay needle : String) : Bool :=
  listInfixOf needle.data hay.data

theorem normStr_idem (o : Option String) : normStr (normStr o) = normStr o := by
  cases o with
  | none => rfl
  | some s =>
    by_cases h : s = "" <;> simp [normStr, h]

theorem normNat_idem (o : Option Nat) : normNat (normNat o) = normNat o := by
  cases o with
  | none => rfl
  | some n =>
    by_cases h : n = 0 <;> simp [normNat, h]

theorem normList_idem {α : Type} (o : Option (List α)) :
    normList (normList o) = normList o := by
  cases o with
  | none => rfl
  | some l =>
    by_cases h : l.isEmpty <;> simp [normList, h]

/-! ## Transport settings (schemas.ts `TransportSettingsSchema`) -/

/-- `network ∈ {raw, ws, grpc, xhttp}`. -/
inductive Network where
  | raw | ws | grpc | xhttp
  deriving DecidableEq, Repr

/-- `security ∈ {none, tls, reality}`. -/
inductive Security where
  | none | tls | reality
  deriving DecidableEq, Repr

structure WsSettings where
  path : Option String := Option.none
  headers : Option (List (String × String)) := Option.none
  deriving DecidableEq, Repr

structure GrpcSettings where
  serviceName : Option String := Option.none
  multiMode : Option Bool := Option.none
  deriving DecidableEq, Repr

structure XhttpSettings where
  path : Option String := Option.none
  host : Option String := Option.none
  deriving DecidableEq, Repr

structure TlsSettings where
  serverName : Option String := Option.none
  alpn : Option (List String) := Option.none
  fingerprint : Option String := Option.none
  deriving DecidableEq, Repr

structure RealitySettings where
  serverName : Option String := Option.none
  fingerprint : Option String := Option.none
  publicKey : Option String := Option.none
  shortId : Option String := Option.none
  spiderX : Option String := Option.none
  deriving DecidableEq, Repr

structure TransportSettings where
  network : Network
  security : Security
  wsSettings : Option WsSettings := Option.none
  grpcSettings : Option GrpcSettings := Option.none
  xhttpSettings : Option XhttpSettings := Option.none
  tlsSettings : Option TlsSettings := Option.none
  realitySettings : Option RealitySettings := Option.none
  deriving DecidableEq, Repr

/-- schemas.ts `defaultTransport`. -/
def defaultTransport : TransportSettings :=
  { network := Network.raw, security := Security.none }

/-! ## Node data model (schemas.ts) -/

structure User where
  email : String
  id : Option String := Option.none
  password : Option String := Option.none
  level : Option Nat := Option.none
  deriving DecidableEq, Repr

inductive InProto where
  | http | socks | vless | vmess | trojan | shadowsocks | dokodemoDoor
  deriving DecidableEq, Repr

/-- Wire name of an inbound protocol. -/
def InProto.toWire : InProto → String
  | .http => "http"
  | .socks => "socks"
  | .vless => "vless"
  | .vmess => "vmess"
  | .trojan => "trojan"
  | .shadowsocks => "shadowsocks"
  | .dokodemoDoor => "dokodemo-door"

/-- `TERMINAL_PROTOCOLS = {freedom, blackhole, dns}` (validation.ts).
Outbound protocols stay wire strings in the node data: the reverse compiler
casts arbitrary protocol strings into outbound nodes, so the zod enum is not
a runtime invariant. -/
def isTerminalProto (p : String) : Bool :=
  p = "freedom" || p = "blackhole" || p = "dns" 

inductive NetFilter where
  | tcp | udp
  deriving DecidableEq, Repr

def NetFilter.toWire : NetFilter → String
  | .tcp => "tcp"
  | .udp => "udp"

inductive ConnectionType where
  | tun2socks | socks | http
  deriving DecidableEq, Repr

structure InboundData where
  tag : String
  protocol : InProto
  listen : String := "0.0.0.0"
  port : Nat := 443
  sniffing : Option Bool := Option.none
  users : Option (List User) := Option.none
  transport : Option TransportSettings := Option.none
  serverId : Option String := Option.none
  deriving DecidableEq, Repr

structure RoutingData where
  tag : String
  domain : Option (List String) := Option.none
  ip : Option (List String) := Option.none
  port : Option String := Option.none
  protocol : Option (List String) := Option.none
  network : Option NetFilter := Option.none
  inboundTag : Option String := Option.none
  serverId : Option String := Option.none
  deriving DecidableEq, Repr

structure BalancerData where
  tag : String
  /-- Strategy stays a wire string: the reverse compiler casts arbitrary
  strategy strings into balancer nodes. -/
  strategy : String
  selector : List String
  serverId : Option String := Option.none
  deriving DecidableEq, Repr

structure OutboundData where
  tag : String
  protocol : String
  serverAddress : Option String := Option.none
  serverPort : Option Nat := Option.none
  transport : Option TransportSettings := Option.none
  serverId : Option String := Option.none
  deriving DecidableEq, Repr

structure DeviceData where
  name : String := "My Device"
  connectionType : ConnectionType := ConnectionType.socks
  deriving DecidableEq, Repr

inductive SimpleProto where
  | vless | vmess | trojan | shadowsocks
  deriving DecidableEq, Repr

structure SimpleServerData where
  name : String := "Server"
  host : String := ""
  port : Nat := 443
  protocol : SimpleProto := SimpleProto.vless
  uuid : Option String := Option.none
  password : Option String := Option.none
  network : Network := Network.raw
  security : Security := Security.none
  sni : Option String := Option.none
  wsPath : Option String := Option.none
  grpcServiceName : Option String := Option.none
  realityPublicKey : Option String := Option.none
  deriving DecidableEq, Repr

inductive SimpleRuleKind where
  | domain | geosite | geoip | all
  deriving DecidableEq, Repr

structure SimpleRuleCondition where
  type : SimpleRuleKind
  value : String := ""
  deriving DecidableEq, Repr

structure SimpleRulesData where
  label : String := "Rules"
  rules : List SimpleRuleCondition := []
  deriving DecidableEq, Repr

/-- `XrayNodeData`: discriminated union keyed by `nodeType`. -/
inductive NodeData where
  | device (d : DeviceData)
  | inbound (d : InboundData)
  | routing (d : RoutingData)
  | balancer (d : BalancerData)
  | outboundTerminal (d : OutboundData)
  | outboundProxy (d : OutboundData)
  | simpleServer (d : SimpleServerData)
  | simpleInternet (label : String)
  | simpleBlock (label : String)
  | simpleRules (d : SimpleRulesData)
  deriving DecidableEq, Repr

/-- The `nodeType` discriminant as a wire string. -/
def NodeData.nodeType : NodeData → String
  | .device _ => "device"
  | .inbound _ => "inbound"
  | .routing _ => "routing"
  | .balancer _ => "balancer"
  | .outboundTerminal _ => "outbound-terminal"
  | .outboundProxy _ => "outbound-proxy"
  | .simpleServer _ => "simple-server"
  | .simpleInternet _ => "simple-internet"
  | .simpleBlock _ => "simple-block"
  | .simpleRules _ => "simple-rules"

/-- `'tag' in data ? data.tag : undefined`: the tag of a tagged node kind. -/
def NodeData.tagOf : NodeData → Option String
  | .inbound d => some d.tag
  | .routing d => some d.tag
  | .balancer d => some d.tag
  | .outboundTerminal d => some d.tag
  | .outboundProxy d => some d.tag
  | _ => Option.none

/-- `'tag' in data ? data.tag : ('name' in data ? data.name : fallback)`. -/
def NodeData.tagOrName (d : NodeData) (fallback : String) : String :=
  match d with
  | .inbound x => x.tag
  | .routing x => x.tag
  | .balancer x => x.tag
  | .outboundTerminal x => x.tag
  | .outboundProxy x => x.tag
  | .device x => x.name
  | .simpleServer x => x.name
  | .simpleInternet _ => fallback
  | .simpleBlock _ => fallback
  | .simpleRules _ => fallback

/-- The `serverId` a node carries, if any. -/
def NodeData.serverIdOf : NodeData → Option String
  | .inbound d => d.serverId
  | .routing d => d.serverId
  | .balancer d => d.serverId
  | .outboundTerminal d => d.serverId
  | .outboundProxy d => d.serverId
  | _ => Option.none

structure EdgeData where
  priority : Option Int := Option.none
  label : Option String := Option.none
  transport : Option TransportSettings := Option.none
  deriving DecidableEq, Repr

/-- A React-Flow node (position omitted: purely cosmetic). -/
structure GraphNode where
  id : Nat
  data : NodeData
  deriving DecidableEq, Repr

/-- A React-Flow edge. -/
structure GraphEdge where
  id : Nat
  source : Nat
  target : Nat
  data : Option EdgeData := Option.none
  deriving DecidableEq, Repr

structure Server where
  id : String
  name : String
  host : String
  sshPort : Nat := 22
  deriving DecidableEq, Repr

/-! ## Connection Rule Checker (`src/utils/connectionRules.ts`) -/

structure ConnectionCheck where
  valid : Bool
  reason : Option String := Option.none
  deriving DecidableEq, Repr

/-- The `allowed` adjacency table of `isValidConnection` (connectionRules.ts,
the module the canvas imports). -/
def allowedTargets (sourceType : String) : Option (List String) :=
  if sourceType = "device" then some ["inbound", "outbound-proxy"]
  else if sourceType = "inbound" then
    some ["routing", "balancer", "outbound-terminal", "outbound-proxy"]
  else if sourceType = "routing" then
    some ["routing", "balancer", "outbound-terminal", "outbound-proxy"]
  else if sourceType = "balancer" then
    some ["outbound-terminal", "outbound-proxy"]
  else if sourceType = "outbound-proxy" then some ["inbound"]
  else Option.none

/-- `isValidConnection(sourceNode, targetNode)` from connectionRules.ts. -/
def isValidConnection (sourceNode targetNode : GraphNode) : ConnectionCheck :=
  let sourceType := sourceNode.data.nodeType
  let targetType := targetNode.data.nodeType
  if sourceType = "outbound-terminal" then
    { valid := false
      reason := some
        "Terminal OUTPUT nodes (freedom/blackhole/dns) cannot have outgoing connections" }
  else
    match allowedTargets sourceType with
    | Option.none =>
        { valid := false
          reason := some ("Cannot connect " ++ sourceType ++ " to " ++ targetType) }
    | some targets =>
        if targets.contains targetType then { valid := true }
        else
          { valid := false
            reason := some ("Cannot connect " ++ sourceType ++ " to " ++ targetType) }

/-! ## String-grammar helpers of the validation engine (validation.ts) -/

/-- Hexadecimal digit, case-insensitive (the `i` flag of `UUID_RE`). -/
def isHexDigit (c : Char) : Bool :=
  c.isDigit || ("abcdef".data.contains c.toLower)

/-- `UUID_RE = /^[0-9a-f]{8}-[0-9a-f]{4}-[0-9a-f]{4}-[0-9a-f]{4}-[0-9a-f]{12}$/i`. -/
def uuidReTest (s : String) : Bool :=
  match (splitChar '-' s).map String.data with
  | [a, b, c, d, e] =>
      a.length = 8 && b.length = 4 && c.length = 4 && d.length = 4 && e.length = 12 &&
      (a ++ b ++ c ++ d ++ e).all isHexDigit
  | _ => false

/-- `IP_RE = /^(?:\d{1,3}\.){3}\d{1,3}$/`. -/
def ipReTest (s : String) : Bool :=
  match (splitChar '.' s).map String.data with
  | [a, b, c, d] =>
      [a, b, c, d].all fun o => 1 ≤ o.length && o.length ≤ 3 && o.all Char.isDigit
  | _ => false

/-- `PORT_RANGE_RE = /^(\d+(-\d+)?)(,\d+(-\d+)?)*$/`. -/
def portRangeReTest (s : String) : Bool :=
  (splitChar ',' s).all fun part =>
    match splitChar '-' part with
    | [a] => a ≠ "" && a.data.all Char.isDigit
    | [a, b] => a ≠ "" && a.data.all Char.isDigit && b ≠ "" && b.data.all Char.isDigit
    | _ => false

/-- `isValidPort` (validation.ts): integer in `[1, 65535]`. -/
def isValidPort (port : Nat) : Bool :=
  1 ≤ port && port ≤ 65535

/-- `parseInt` on an all-digit octet. -/
def octetVal (s : String) : Nat :=
  (strToNat s).getD 0

/-- `isValidIP` (validation.ts). -/
def isValidIP (ip : String) : Bool :=
  if ip = "0.0.0.0" || ip = "127.0.0.1" then true
  else if !ipReTest ip then false
  else (splitChar '.' ip).all fun octet => octetVal octet ≤ 255

/-! ## Traffic simulator (`simulation.ts`) -/

structure SimulationInput where
  domain : String
  protocol : String
  port : Nat
  inboundTag : String
  deriving DecidableEq, Repr

structure SimulationStep where
  nodeId : Nat
  tag : String
  nodeType : String
  description : String
  deriving DecidableEq, Repr

structure SimulationResult where
  success : Bool
  path : List SimulationStep
  highlightNodeIds : List Nat
  highlightEdgeIds : List Nat
  finalOutbound : Option String
  explanation : String
  deriving DecidableEq, Repr

/-- The wildcard of the unescaped dot in the `geosite:twitter` pattern
`x.com`: an `x`, any character, then `com`, anywhere in the string. -/
def xAnyComAt : List Char → Bool
  | 'x' :: _ :: 'c' :: 'o' :: 'm' :: _ => true
  | _ => false

def hasXAnyCom : List Char → Bool
  | [] => false
  | c :: t => xAnyComAt (c :: t) || hasXAnyCom t

/-- `matchDomainRule(rule, domain)`; `rx` is the ambient RegExp engine used by
the `regexp:` branch (its result on an invalid pattern is the caught `false`,
folded into `rx`). -/
def matchDomainRule (rx : String → String → Bool) (rule domain : String) : Bool :=
  let lower := jsToLower domain
  if strStartsWith rule "regexp:" then rx (strDrop rule 7) lower
  else if strStartsWith rule "domain:" then
    let target := jsToLower (strDrop rule 7)
    lower = target || strEndsWith lower ("." ++ target)
  else if strStartsWith rule "full:" then
    lower = jsToLower (strDrop rule 5)
  else if strStartsWith rule "geosite:" then
    let geo := jsToLower (strDrop rule 8)
    if geo = "google" then
      strContains lower "google." || strContains lower "youtube." ||
        strContains lower "gmail." || strContains lower "gstatic."
    else if geo = "facebook" then
      strContains lower "facebook." || strContains lower "fb." ||
        strContains lower "instagram." || strContains lower "whatsapp."
    else if geo = "twitter" then
      strContains lower "twitter." || hasXAnyCom lower.data ||
        strContains lower "twimg."
    else if geo = "cn" || geo = "geolocation-cn" then
      strEndsWith lower ".cn" || strContains lower "baidu." || strContains lower "qq." ||
        strContains lower "taobao." || strContains lower "alibaba."
    else false
  else
    let target := jsToLower rule
    lower = target || strEndsWith lower ("." ++ target)

/-- `matchIpRule`: IP rules never match in simulation. -/
def matchIpRule (_rule _domain : String) : Bool := false

/-- JS `Number(s)` restricted to naturals: `Number("") = 0`, digit strings
parse, anything else is NaN (`none`). -/
def jsNumberNat (s : String) : Option Nat :=
  if s = "" then some 0 else strToNat s

/-- `matchPortRule(rule, port)`. -/
def matchPortRule (rule : String) (port : Nat) : Bool :=
  (splitChar ',' rule).any fun part =>
    let trimmed := jsTrim part
    if strContainsChar trimmed '-' then
      match splitChar '-' trimmed with
      | a :: b :: _ =>
          match jsNumberNat a, jsNumberNat b with
          | some s, some e => s ≤ port && port ≤ e
          | _, _ => false
      | _ => false
    else
      jsNumberNat trimmed = some port

/-- `matchProtocolRule(rules, protocol)`. -/
def matchProtocolRule (rules : List String) (protocol : String) : Bool :=
  rules.any fun r => jsToLower r = jsToLower protocol

/-- `doesRoutingMatch(routing, input, sourceInboundTag)`. -/
def doesRoutingMatch (rx : String → String → Bool) (routing : RoutingData)
    (input : SimulationInput) (sourceInboundTag : String) : Bool :=
  let inTagBlocks : Bool :=
    match normStr routing.inboundTag with
    | some t => t ≠ sourceInboundTag
    | Option.none => false
  if inTagBlocks then
    false
  else
    let domainRules := normList routing.domain
    let ipRules := normList routing.ip
    let portRule := normStr routing.port
    let protoRules := normList routing.protocol
    let hasRules :=
      domainRules.isSome || ipRules.isSome || portRule.isSome ||
        protoRules.isSome || routing.network.isSome
    let matched :=
      (match domainRules with
       | some l => l.any fun rule => matchDomainRule rx rule input.domain
       | Option.none => true) &&
      (match ipRules with
       | some l =>
           l.any (fun rule => matchIpRule rule input.domain) || domainRules.isSome
       | Option.none => true) &&
      (match portRule with
       | some p => matchPortRule p input.port
       | Option.none => true) &&
      (match protoRules with
       | some l => matchProtocolRule l input.protocol
       | Option.none => true) &&
      (match routing.network with
       | some n => n.toWire = input.protocol
       | Option.none => true)
    if !hasRules then true else matched

/-- `priority ?? 999` of an edge. -/
def priOf (e : GraphEdge) : Int :=
  ((e.data.bind EdgeData.priority).getD 999)

/-- Stable insertion into a priority-sorted list (JS `Array.prototype.sort`
with comparator `pa - pb` is stable). -/
def insertByPri (e : GraphEdge) : List GraphEdge → List GraphEdge
  | [] => [e]
  | h :: t => if priOf h < priOf e then h :: insertByPri e t else e :: h :: t

def sortByPri : List GraphEdge → List GraphEdge
  | [] => []
  | h :: t => insertByPri h (sortByPri t)

/-- `getOutgoingEdges(nodeId, edges)`: outgoing edges in ascending priority. -/
def getOutgoingEdges (nodeId : Nat) (edges : List GraphEdge) : List GraphEdge :=
  sortByPri (edges.filter fun e => e.source = nodeId)

/-- `getNodeById(nodeId, nodes)`. -/
def getNodeById (nodeId : Nat) (nodes : List GraphNode) : Option GraphNode :=
  nodes.find? fun n => n.id = nodeId

def ConnectionType.toWire : ConnectionType → String
  | .tun2socks => "tun2socks"
  | .socks => "socks"
  | .http => "http"

/-- `s.charAt(0).toUpperCase() + s.slice(1)`. -/
def capitalizeStr (s : String) : String :=
  match s.data with
  | [] => ""
  | c :: t => String.mk (c.toUpper :: t)

/-- First-two-joined-with-ellipsis rendering used by `describeNode`. -/
def sliceJoin2 (l : List String) : String :=
  joinStr ", " (l.take 2) ++ (if l.length > 2 then "..." else "")

/-- `describeNode(node)`; the `switch` has no case for the simple-mode node
kinds, where the source yields `undefined` (modelled as `""`). -/
def describeNode (node : GraphNode) : String :=
  match node.data with
  | .device d => "Device (" ++ d.connectionType.toWire ++ ")"
  | .inbound d => jsToUpper d.protocol.toWire ++ " INPUT :" ++ toString d.port
  | .routing d =>
      let rules :=
        (match normList d.domain with
         | some l => ["domain: " ++ sliceJoin2 l]
         | Option.none => []) ++
        (match normList d.ip with
         | some l => ["ip: " ++ sliceJoin2 l]
         | Option.none => []) ++
        (match normStr d.port with
         | some p => ["port: " ++ p]
         | Option.none => []) ++
        (match normList d.protocol with
         | some l => ["proto: " ++ joinStr ", " l]
         | Option.none => []) ++
        (match d.network with
         | some n => ["net: " ++ n.toWire]
         | Option.none => [])
      if rules.length > 0 then "Routing [" ++ joinStr "; " rules ++ "]"
      else "Routing [catch-all]"
  | .balancer d => "Balancer (" ++ d.strategy ++ ")"
  | .outboundTerminal d => capitalizeStr d.protocol ++ " OUTPUT (terminal)"
  | .outboundProxy d =>
      "OUTPUT " ++ jsToUpper d.protocol ++ " → " ++
        jsOrStr d.serverAddress "?" ++ ":" ++
        (match normNat d.serverPort with
         | some n => toString n
         | Option.none => "?")
  | _ => ""

/-- The balancer candidate filter of `runSimulation` (the `validTargets`
computation): an outgoing edge qualifies when its target node exists and its
target's tag equals a selector entry or contains one as a substring (every
resolving edge qualifies when the selector list is empty).  A target without
a `tag` field is modelled with the empty string. -/
def balancerValidTargets (balancerData : BalancerData) (outgoing : List GraphEdge)
    (nodes : List GraphNode) : List GraphEdge :=
  outgoing.filter fun edge =>
    match getNodeById edge.target nodes with
    | Option.none => false
    | some targetNode =>
        if balancerData.selector.isEmpty then true
        else
          balancerData.selector.any fun sel =>
            let tag := (targetNode.data.tagOf).getD ""
            tag = sel || strContains tag sel

/-- The inbound transition scan: first outgoing edge to a matching routing
node, else the first edge to a non-routing target as fallback. -/
def inboundPickEdge (rx : String → String → Bool) (input : SimulationInput)
    (inboundTag : String) (nodes : List GraphNode) :
    List GraphEdge → Option GraphEdge → Option GraphEdge
  | [], fallback => fallback
  | e :: rest, fallback =>
      match getNodeById e.target nodes with
      | Option.none => inboundPickEdge rx input inboundTag nodes rest fallback
      | some targetNode =>
          match targetNode.data with
          | .routing rd =>
              if doesRoutingMatch rx rd input inboundTag then some e
              else inboundPickEdge rx input inboundTag nodes rest fallback
          | _ =>
              inboundPickEdge rx input inboundTag nodes rest
                (match fallback with
                 | some f => some f
                 | Option.none => some e)

/-- Append a suffix to the description of the last path entry (the balancer
step's `→ selected:` annotation). -/
def updateLastStep : List SimulationStep → String → List SimulationStep
  | [], _ => []
  | [last], suffix => [{ last with description := last.description ++ suffix }]
  | h :: t, suffix => h :: updateLastStep t suffix

def mkSimStep (cur : GraphNode) : SimulationStep :=
  { nodeId := cur.id
    tag := cur.data.tagOrName (toString cur.id)
    nodeType := cur.data.nodeType
    description := describeNode cur }

def endedUnexpectedly (path : List SimulationStep) (hN hE : List Nat) :
    SimulationResult :=
  { success := false
    path := path
    highlightNodeIds := hN
    highlightEdgeIds := hE
    finalOutbound := Option.none
    explanation := "Simulation ended unexpectedly." }

/-- The `while (currentNode)` loop of `runSimulation`.  One fuel unit per
iteration; every iteration that does not return adds a fresh node id to the
visited set, so `nodes.length + 1` units can never be exhausted. -/
def simLoop (rx : String → String → Bool) (input : SimulationInput)
    (nodes : List GraphNode) (edges : List GraphEdge) :
    Nat → Option GraphNode → List Nat → List SimulationStep → List Nat →
      List Nat → List Nat → SimulationResult
  | 0, _, _, path, hN, hE, _ => endedUnexpectedly path hN hE
  | _ + 1, Option.none, _, path, hN, hE, _ => endedUnexpectedly path hN hE
  | fuel + 1, some cur, visited, path, hN, hE, rands =>
    if visited.contains cur.id then
      let path := path ++ [{ nodeId := cur.id
                             tag := cur.data.tagOrName (toString cur.id)
                             nodeType := cur.data.nodeType
                             description := "Cycle detected — stopping." }]
      { success := false
        path := path
        highlightNodeIds := hN
        highlightEdgeIds := hE
        finalOutbound := Option.none
        explanation := "Traffic entered a cycle. This is likely a misconfiguration." }
    else
      let visited := visited ++ [cur.id]
      let hN := hN ++ [cur.id]
      let path := path ++ [mkSimStep cur]
      match cur.data with
      | .outboundTerminal d =>
          let action :=
            if d.protocol = "freedom" then "Direct connection to internet"
            else if d.protocol = "blackhole" then "Traffic blocked"
            else if d.protocol = "dns" then "DNS query forwarded"
            else "Unknown"
          { success := true
            path := path
            highlightNodeIds := hN
            highlightEdgeIds := hE
            finalOutbound := some d.tag
            explanation := action ++ " via \"" ++ d.tag ++ "\"." }
      | .outboundProxy d =>
          let stop : SimulationResult :=
            { success := true
              path := path
              highlightNodeIds := hN
              highlightEdgeIds := hE
              finalOutbound := some d.tag
              explanation :=
                "Traffic forwarded to " ++ jsOrStr d.serverAddress "?" ++ ":" ++
                  (match normNat d.serverPort with
                   | some n => toString n
                   | Option.none => "?") ++ " via \"" ++ d.tag ++ "\"." }
          (match getOutgoingEdges cur.id edges with
           | nextEdge :: _ =>
               (match getNodeById nextEdge.target nodes with
                | some nextNode =>
                    (match nextNode.data with
                     | .inbound _ =>
                         simLoop rx input nodes edges fuel (some nextNode) visited
                           path hN (hE ++ [nextEdge.id]) rands
                     | _ => stop)
                | Option.none => stop)
           | [] => stop)
      | data =>
          let outgoing := getOutgoingEdges cur.id edges
          if outgoing.isEmpty then
            { success := false
              path := path
              highlightNodeIds := hN
              highlightEdgeIds := hE
              finalOutbound := Option.none
              explanation :=
                "Dead end at \"" ++ (data.tagOf).getD "undefined" ++
                  "\" — no outgoing connections." }
          else
            match data with
            | .inbound d =>
                (match inboundPickEdge rx input d.tag nodes outgoing Option.none with
                 | Option.none =>
                     { success := false
                       path := path
                       highlightNodeIds := hN
                       highlightEdgeIds := hE
                       finalOutbound := Option.none
                       explanation :=
                         "No routing rule matched for " ++ input.domain ++ ":" ++
                           toString input.port ++ " (" ++ input.protocol ++
                           ") from \"" ++ d.tag ++ "\"." }
                 | some nextEdge =>
                     simLoop rx input nodes edges fuel
                       (getNodeById nextEdge.target nodes) visited path hN
                       (hE ++ [nextEdge.id]) rands)
            | .routing _ =>
                (match outgoing with
                 | nextEdge :: _ =>
                     simLoop rx input nodes edges fuel
                       (getNodeById nextEdge.target nodes) visited path hN
                       (hE ++ [nextEdge.id]) rands
                 | [] => endedUnexpectedly path hN hE)
            | .balancer bd =>
                let validTargets := balancerValidTargets bd outgoing nodes
                if validTargets.isEmpty then
                  (match outgoing with
                   | nextEdge :: _ =>
                       simLoop rx input nodes edges fuel
                         (getNodeById nextEdge.target nodes) visited path hN
                         (hE ++ [nextEdge.id]) rands
                   | [] => endedUnexpectedly path hN hE)
                else
                  let idxAndRest : Nat × List Nat :=
                    if bd.strategy = "random" then
                      ((rands.headD 0) % validTargets.length, rands.tail)
                    else (0, rands)
                  let selectedEdge :=
                    validTargets.getD idxAndRest.1 { id := 0, source := 0, target := 0 }
                  let path :=
                    match getNodeById selectedEdge.target nodes with
                    | some selectedTarget =>
                        updateLastStep path
                          (" → selected: " ++
                            (selectedTarget.data.tagOf).getD "undefined")
                    | Option.none => path
                  simLoop rx input nodes edges fuel
                    (getNodeById selectedEdge.target nodes) visited path hN
                    (hE ++ [selectedEdge.id]) idxAndRest.2
            | _ => endedUnexpectedly path hN hE

/-- `runSimulation(input, nodes, edges)`.  `rx` is the ambient RegExp engine
(fixed across invocations); `rands` the external `Math.random()` entropy, one
draw per visit to a `random`-strategy balancer. -/
def runSimulation (rx : String → String → Bool) (input : SimulationInput)
    (nodes : List GraphNode) (edges : List GraphEdge) (rands : List Nat) :
    SimulationResult :=
  match nodes.find? (fun n =>
      match n.data with
      | .inbound d => d.tag = input.inboundTag
      | _ => false) with
  | Option.none =>
      { success := false
        path := []
        highlightNodeIds := []
        highlightEdgeIds := []
        finalOutbound := Option.none
        explanation := "INPUT \"" ++ input.inboundTag ++ "\" not found." }
  | some startNode =>
      simLoop rx input nodes edges (nodes.length + 1) (some startNode) [] [] [] [] rands

/-! ## Validation engine (`src/utils/validation.ts`) -/

inductive Level where
  | error | warning | info
  deriving DecidableEq, Repr

structure ValidationIssue where
  level : Level
  nodeId : Option Nat := Option.none
  message : String
  deriving DecidableEq, Repr

structure ValidationResult where
  valid : Bool
  errors : List ValidationIssue
  warnings : List ValidationIssue
  infos : List ValidationIssue
  deriving DecidableEq, Repr

/-- `!x` for an optional string together with `.trim() === ''`. -/
def strBlank (o : Option String) : Bool :=
  match o with
  | Option.none => true
  | some s => s = "" || jsTrim s = ""

/-- `!x?.y` for a doubly-optional string (absent object, absent field, or
empty string). -/
def optStrFalsy (o : Option String) : Bool :=
  (normStr o).isNone

def Network.toWire : Network → String
  | .raw => "raw"
  | .ws => "ws"
  | .grpc => "grpc"
  | .xhttp => "xhttp"

def SimpleProto.toWire : SimpleProto → String
  | .vless => "vless"
  | .vmess => "vmess"
  | .trojan => "trojan"
  | .shadowsocks => "shadowsocks"

def SimpleRuleKind.toWire : SimpleRuleKind → String
  | .domain => "domain"
  | .geosite => "geosite"
  | .geoip => "geoip"
  | .all => "all"

def errIssue (id : Nat) (msg : String) : ValidationIssue :=
  { level := Level.error, nodeId := some id, message := msg }

def warnIssue (id : Nat) (msg : String) : ValidationIssue :=
  { level := Level.warning, nodeId := some id, message := msg }

/-- `validateInbound(node, data, issues)` (the issues it appends). -/
def validateInbound (id : Nat) (data : InboundData) : List ValidationIssue :=
  (if strBlank (some data.tag) then [errIssue id "INPUT node requires a tag"] else []) ++
  (if !isValidPort data.port then
    [errIssue id ("Invalid port: " ++ toString data.port ++ ". Must be 1-65535")]
  else []) ++
  (if data.listen ≠ "" && data.listen ≠ "0.0.0.0" && !isValidIP data.listen then
    [warnIssue id ("Listen address \"" ++ data.listen ++ "\" may not be a valid IP")]
  else []) ++
  (if data.protocol = InProto.vless || data.protocol = InProto.vmess ||
      data.protocol = InProto.trojan then
    match normList data.users with
    | Option.none =>
        [warnIssue id (data.protocol.toWire ++ " INPUT has no users configured")]
    | some users =>
        (users.enum.flatMap fun ui =>
          (if (data.protocol = InProto.vless || data.protocol = InProto.vmess) &&
              (normStr ui.2.id).isSome && !uuidReTest (jsOrStr ui.2.id "") then
            [errIssue id ("User " ++ toString (ui.1 + 1) ++ " has invalid UUID: \"" ++
              jsOrStr ui.2.id "" ++ "\"")]
          else []) ++
          (if data.protocol = InProto.trojan && strBlank ui.2.password then
            [errIssue id ("User " ++ toString (ui.1 + 1) ++ " requires a password for Trojan")]
          else []))
  else [])

/-- `validateRouting(node, data, issues)`. -/
def validateRouting (id : Nat) (data : RoutingData) : List ValidationIssue :=
  (if strBlank (some data.tag) then [errIssue id "Routing node requires a tag"] else []) ++
  (let hasRules :=
    (normList data.domain).isSome || (normList data.ip).isSome ||
      (normStr data.port).isSome || (normStr data.inboundTag).isSome ||
      data.network.isSome || (normList data.protocol).isSome
  if !hasRules then [warnIssue id "Routing node has no rules defined"] else []) ++
  (match normStr data.port with
   | some p =>
       if !portRangeReTest p then
         [errIssue id ("Invalid port format: \"" ++ p ++
           "\". Use \"80,443\" or \"1000-2000\"")]
       else []
   | Option.none => [])

/-- `validateBalancer(node, data, issues)`. -/
def validateBalancer (id : Nat) (data : BalancerData) : List ValidationIssue :=
  (if strBlank (some data.tag) then [errIssue id "Balancer node requires a tag"] else []) ++
  (if data.selector.isEmpty then
    [warnIssue id "Balancer has no selectors — connections will define targets"]
  else [])

/-- `validateOutbound(node, data, nodeType, issues)`. -/
def validateOutbound (id : Nat) (data : OutboundData) (isProxy : Bool) :
    List ValidationIssue :=
  (if strBlank (some data.tag) then [errIssue id "OUTPUT node requires a tag"] else []) ++
  (if isProxy then
    (if strBlank data.serverAddress then
      [errIssue id "Proxy OUTPUT requires a server address"]
    else []) ++
    (if (normNat data.serverPort).isNone ||
        !isValidPort ((normNat data.serverPort).getD 0) then
      [errIssue id "Proxy OUTPUT requires a valid server port (1-65535)"]
    else [])
  else [])

/-- `validateSimpleServer(node, data, issues)`. -/
def validateSimpleServer (id : Nat) (data : SimpleServerData) : List ValidationIssue :=
  (if strBlank (some data.host) then [errIssue id "Server requires a host address"] else []) ++
  (if !isValidPort data.port then
    [errIssue id ("Invalid port: " ++ toString data.port ++ ". Must be 1-65535")]
  else []) ++
  (if data.protocol = SimpleProto.vless || data.protocol = SimpleProto.vmess then
    if strBlank data.uuid then
      [warnIssue id (data.protocol.toWire ++ " server should have a UUID configured")]
    else if !uuidReTest (jsOrStr data.uuid "") then
      [errIssue id ("Invalid UUID: \"" ++ jsOrStr data.uuid "" ++ "\"")]
    else []
  else []) ++
  (if data.protocol = SimpleProto.trojan || data.protocol = SimpleProto.shadowsocks then
    if strBlank data.password then
      [warnIssue id (data.protocol.toWire ++ " server should have a password configured")]
    else []
  else []) ++
  (if data.security = Security.reality then
    (if data.network ≠ Network.raw && data.network ≠ Network.xhttp then
      [errIssue id ("Reality security only works with RAW or XHTTP transport (currently: " ++
        data.network.toWire ++ ")")]
    else []) ++
    (if optStrFalsy data.realityPublicKey then
      [errIssue id "Reality security requires a public key"]
    else [])
  else []) ++
  (if data.security = Security.tls && optStrFalsy data.sni then
    [warnIssue id "TLS security should have an SNI configured"]
  else []) ++
  (if data.network = Network.ws && optStrFalsy data.wsPath then
    [warnIssue id "WebSocket transport should have a path configured"]
  else []) ++
  (if data.network = Network.grpc && optStrFalsy data.grpcServiceName then
    [warnIssue id "gRPC transport should have a service name configured"]
  else [])

/-- `validateSimpleRules(node, data, issues)`. -/
def validateSimpleRules (id : Nat) (data : SimpleRulesData) : List ValidationIssue :=
  if data.rules.isEmpty then
    [warnIssue id "Rules node has no rules defined — will match nothing"]
  else
    data.rules.enum.flatMap fun ri =>
      if ri.2.type ≠ SimpleRuleKind.all && strBlank (some ri.2.value) then
        [errIssue id ("Rule " ++ toString (ri.1 + 1) ++ " (" ++ ri.2.type.toWire ++
          ") has no value")]
      else []

/-- `validateTransport(nodeId, transport, issues)`. -/
def validateTransport (nodeId : Nat) (t : TransportSettings) : List ValidationIssue :=
  (if t.security = Security.reality && t.network ≠ Network.raw &&
      t.network ≠ Network.xhttp then
    [errIssue nodeId ("Reality security only works with RAW or XHTTP transport (currently: " ++
      t.network.toWire ++ ")")]
  else []) ++
  (if t.network = Network.ws && optStrFalsy (t.wsSettings.bind WsSettings.path) then
    [warnIssue nodeId "WebSocket transport should have a path configured"]
  else []) ++
  (if t.network = Network.grpc &&
      optStrFalsy (t.grpcSettings.bind GrpcSettings.serviceName) then
    [warnIssue nodeId "gRPC transport should have a serviceName configured"]
  else []) ++
  (if t.security = Security.tls &&
      optStrFalsy (t.tlsSettings.bind TlsSettings.serverName) then
    [warnIssue nodeId "TLS security should have a serverName configured"]
  else []) ++
  (if t.security = Security.reality then
    (if optStrFalsy (t.realitySettings.bind RealitySettings.publicKey) then
      [errIssue nodeId "Reality security requires a publicKey"]
    else []) ++
    (if optStrFalsy (t.realitySettings.bind RealitySettings.shortId) then
      [warnIssue nodeId "Reality security should have a shortId configured"]
    else []) ++
    (if optStrFalsy (t.realitySettings.bind RealitySettings.serverName) then
      [warnIssue nodeId "Reality security should have a serverName configured"]
    else [])
  else [])

/-- A JS `Map<K, List V>` as an insertion-ordered association list; `add`
appends the value to the key's bucket, creating the bucket at the end on
first sight of the key. -/
def bucketAdd {κ : Type} [DecidableEq κ] (m : List (κ × List Nat)) (key : κ)
    (id : Nat) : List (κ × List Nat) :=
  match m with
  | [] => [(key, [id])]
  | (k, ids) :: rest =>
      if k = key then (k, ids ++ [id]) :: rest else (k, ids) :: bucketAdd rest key id

/-- The duplicate-tag map of `validateStructure`: node ids bucketed by tag,
skipping untagged nodes and blank tags. -/
def dupTagMap (nodes : List GraphNode) : List (String × List Nat) :=
  nodes.foldl
    (fun m node =>
      match node.data.tagOf with
      | some tag => if tag ≠ "" && jsTrim tag ≠ "" then bucketAdd m tag node.id else m
      | Option.none => m)
    []

/-- The port-conflict map of `validateStructure` (keys are the rendered
`${data.port}` strings). -/
def portMap (nodes : List GraphNode) : List (String × List Nat) :=
  nodes.foldl
    (fun m node =>
      match node.data with
      | NodeData.inbound d => bucketAdd m (toString d.port) node.id
      | _ => m)
    []

def dupIssuesOf (m : List (String × List Nat)) (mkMsg : String → String) :
    List ValidationIssue :=
  m.flatMap fun b =>
    if b.2.length > 1 then b.2.map (fun id => errIssue id (mkMsg b.1)) else []

/-- `canReachOutbound(nodeId, edges, outboundIds, visited)` — DFS with a
shared visited set; the `outgoing.some(...)` scan stops at the first hit and
later edges are not explored.  Fuelled structurally: one unit per call, and
the nesting of calls is bounded well below `(edges.length + 2) ^ 2`. -/
def canReachOutbound (fuel : Nat) (nodeId : Nat) (edges : List GraphEdge)
    (outboundIds : List Nat) (visited : List Nat) : Bool × List Nat :=
  match fuel with
  | 0 => (false, visited)
  | fuel + 1 =>
      if outboundIds.contains nodeId then (true, visited)
      else if visited.contains nodeId then (false, visited)
      else
        (edges.filter fun e => e.source = nodeId).foldl
          (fun (acc : Bool × List Nat) e =>
            if acc.1 then acc
            else canReachOutbound fuel e.target edges outboundIds acc.2)
          (false, visited ++ [nodeId])

/-- A JS `Map<K, V>` as an insertion-ordered association list with
replace-on-set. -/
def mapSet {κ ν : Type} [DecidableEq κ] (m : List (κ × ν)) (key : κ) (v : ν) :
    List (κ × ν) :=
  match m with
  | [] => [(key, v)]
  | (k, w) :: rest => if k = key then (k, v) :: rest else (k, w) :: mapSet rest key v

def mapGet {κ ν : Type} [DecidableEq κ] (m : List (κ × ν)) (key : κ) : Option ν :=
  (m.find? fun kv => kv.1 = key).map Prod.snd

/-- `adjacency.get(e.source)?.push(e.target)`: append when present, no-op
when absent. -/
def adjPush (m : List (Nat × List Nat)) (key : Nat) (v : Nat) : List (Nat × List Nat) :=
  match m with
  | [] => []
  | (k, vs) :: rest =>
      if k = key then (k, vs ++ [v]) :: rest else (k, vs) :: adjPush rest key v

/-- The cycle-detection traversal graph: one adjacency bucket per node, with
`outbound-proxy → inbound` edges excluded. -/
def cycleAdjacency (nodes : List GraphNode) (edges : List GraphEdge) :
    List (Nat × List Nat) :=
  let types := nodes.foldl (fun m n => mapSet m n.id n.data.nodeType) []
  let adj0 := nodes.foldl (fun m n => mapSet m n.id ([] : List Nat)) []
  edges.foldl
    (fun adj e =>
      if mapGet types e.source = some "outbound-proxy" &&
          mapGet types e.target = some "inbound" then adj
      else adjPush adj e.source e.target)
    adj0

/-- The state threaded through the `dfs` of `detectCycles`. -/
structure DfsState where
  visited : List Nat
  inStack : List Nat
  issues : List ValidationIssue

/-- The `dfs` of `detectCycles`; returns whether a cycle was found from this
node.  The neighbor loop returns at the first cycle-reporting neighbor, so
later neighbors are not explored.  Fuelled structurally: one unit per call;
the nesting of calls is bounded well below
`(nodes.length + 2) * (edges.length + 2)`. -/
def cycleDfs (fuel : Nat) (adj : List (Nat × List Nat)) (nodeId : Nat)
    (st : DfsState) : Bool × DfsState :=
  match fuel with
  | 0 => (false, st)
  | fuel + 1 =>
      if st.inStack.contains nodeId then (true, st)
      else if st.visited.contains nodeId then (false, st)
      else
        let st := { st with visited := st.visited ++ [nodeId],
                            inStack := st.inStack ++ [nodeId] }
        let r := ((mapGet adj nodeId).getD []).foldl
          (fun (acc : Bool × DfsState) neighbor =>
            if acc.1 then acc
            else
              let r := cycleDfs fuel adj neighbor acc.2
              if r.1 then
                (true, { r.2 with issues := r.2.issues ++
                  [errIssue nodeId
                    "Cycle detected in graph — traffic would loop indefinitely"] })
              else (false, r.2))
          (false, st)
        if r.1 then (true, r.2)
        else (false, { r.2 with inStack := r.2.inStack.erase nodeId })

/-- `detectCycles(nodes, edges, issues)` (the issues it appends). -/
def detectCycles (nodes : List GraphNode) (edges : List GraphEdge) :
    List ValidationIssue :=
  let adj := cycleAdjacency nodes edges
  let final := nodes.foldl
    (fun (st : DfsState) node =>
      if st.visited.contains node.id then st
      else (cycleDfs ((nodes.length + 2) * (edges.length + 2)) adj node.id st).2)
    { visited := [], inStack := [], issues := [] }
  final.issues

/-- `validateStructure(nodes, edges, issues)` (the issues it appends, in
source order). -/
def validateStructure (nodes : List GraphNode) (edges : List GraphEdge) :
    List ValidationIssue :=
  let inboundNodes := nodes.filter fun n => n.data.nodeType = "inbound"
  let dupIssues :=
    dupIssuesOf (dupTagMap nodes) fun tag => "Duplicate tag: \"" ++ tag ++ "\""
  let portIssues :=
    dupIssuesOf (portMap nodes) fun port =>
      "Port conflict: port " ++ port ++ " used by multiple INPUT nodes"
  let noOutgoing := inboundNodes.flatMap fun node =>
    if edges.any (fun e => e.source = node.id) then []
    else [warnIssue node.id "INPUT node has no outgoing connections"]
  let noUpstream := inboundNodes.flatMap fun node =>
    let hasDeviceOrProxy := edges.any fun e =>
      e.target = node.id &&
        (match getNodeById e.source nodes with
         | some sourceNode => sourceNode.data.nodeType = "outbound-proxy"
         | Option.none => false)
    if hasDeviceOrProxy then []
    else
      [warnIssue node.id
        "No upstream OUTPUT connects to this INPUT. It's OK if you're just planning the infrastructure side."]
  let deviceCompat := (nodes.filter fun n => n.data.nodeType = "device").flatMap
    fun device =>
      match device.data with
      | NodeData.device dd =>
          (edges.filter fun e => e.source = device.id).flatMap fun edge =>
            match getNodeById edge.target nodes with
            | Option.none => []
            | some targetNode =>
                match targetNode.data with
                | NodeData.outboundProxy od =>
                    let requiredProtocol :=
                      if dd.connectionType = ConnectionType.http then "http" else "socks"
                    if od.protocol ≠ requiredProtocol then
                      [errIssue device.id
                        ("Device with \"" ++ dd.connectionType.toWire ++
                          "\" connection must connect to a \"" ++ requiredProtocol ++
                          "\" OUTPUT, but \"" ++ od.tag ++ "\" uses \"" ++
                          od.protocol ++ "\""),
                       errIssue targetNode.id
                        ("OUTPUT protocol \"" ++ od.protocol ++
                          "\" is incompatible with connected device using \"" ++
                          dd.connectionType.toWire ++ "\". Expected \"" ++
                          requiredProtocol ++ "\"")]
                    else []
                | _ => []
      | _ => []
  let terminalNodes := nodes.filter fun n => n.data.nodeType = "outbound-terminal"
  let terminalIncoming := terminalNodes.flatMap fun node =>
    if edges.any (fun e => e.target = node.id) then []
    else [warnIssue node.id "Terminal OUTPUT has no incoming connections"]
  let proxyNodes := nodes.filter fun n => n.data.nodeType = "outbound-proxy"
  let proxyIncoming := proxyNodes.flatMap fun node =>
    if edges.any (fun e => e.target = node.id) then []
    else [warnIssue node.id "Proxy OUTPUT has no incoming connections"]
  let proxyDeadEnd := proxyNodes.flatMap fun node =>
    if edges.any (fun e => e.source = node.id) then []
    else
      [warnIssue node.id
        "Proxy OUTPUT is a dead-end — no connection to a downstream INPUT node. In infrastructure mode, connect it to an INPUT on the exit server."]
  let simpleServerIncoming :=
    (nodes.filter fun n => n.data.nodeType = "simple-server").flatMap fun node =>
      if edges.any (fun e => e.target = node.id) then []
      else [warnIssue node.id "Server has no incoming connections"]
  let simpleTerminalIncoming :=
    (nodes.filter fun n =>
        n.data.nodeType = "simple-internet" || n.data.nodeType = "simple-block").flatMap
      fun node =>
        if edges.any (fun e => e.target = node.id) then []
        else [warnIssue node.id "Terminal node has no incoming connections"]
  let terminalIds := terminalNodes.map GraphNode.id
  let reachability := inboundNodes.flatMap fun inbound =>
    if (canReachOutbound ((edges.length + 2) * (edges.length + 2)) inbound.id edges
        terminalIds []).1 then []
    else
      [warnIssue inbound.id
        "INPUT node cannot reach any terminal OUTPUT (Freedom/Blackhole/DNS). Traffic has no final destination."]
  dupIssues ++ portIssues ++ noOutgoing ++ noUpstream ++ deviceCompat ++
    terminalIncoming ++ proxyIncoming ++ proxyDeadEnd ++ simpleServerIncoming ++
    simpleTerminalIncoming ++ reachability ++ detectCycles nodes edges

/-- A JS `Set<String>` as an insertion-ordered duplicate-free list. -/
def setAdd (s : List String) (x : String) : List String :=
  if s.contains x then s else s ++ [x]

/-- `validateConfig(nodes, edges, issues)` (the issues it appends). -/
def validateConfig (nodes : List GraphNode) : List ValidationIssue :=
  let allTags := nodes.foldl
    (fun s n =>
      match n.data.tagOf with
      | some tag => if tag ≠ "" then setAdd s tag else s
      | Option.none => s)
    []
  let inboundTagIssues := nodes.flatMap fun n =>
    match n.data with
    | NodeData.routing rd =>
        (match normStr rd.inboundTag with
         | some t =>
             if !allTags.contains t then
               [warnIssue n.id ("Routing references inboundTag \"" ++ t ++
                 "\" which doesn't match any INPUT tag")]
             else []
         | Option.none => [])
    | _ => []
  let selectorIssues := nodes.flatMap fun n =>
    match n.data with
    | NodeData.balancer bd =>
        if bd.selector.length > 0 then
          bd.selector.flatMap fun sel =>
            if allTags.any (fun tag => strStartsWith tag sel) then []
            else
              [warnIssue n.id ("Balancer selector \"" ++ sel ++
                "\" doesn't match any OUTPUT tag")]
        else []
    | _ => []
  inboundTagIssues ++ selectorIssues

/-- The node-id → serverId map used by the edge-transport pass of
`validateGraph`. -/
def nodeServerMap (nodes : List GraphNode) : List (Nat × Option String) :=
  nodes.foldl (fun m n => mapSet m n.id n.data.serverIdOf) []

/-- `validateGraph(nodes, edges)`. -/
def validateGraph (nodes : List GraphNode) (edges : List GraphEdge) :
    ValidationResult :=
  let nodeIssues := nodes.flatMap fun node =>
    match node.data with
    | NodeData.inbound d => validateInbound node.id d
    | NodeData.routing d => validateRouting node.id d
    | NodeData.balancer d => validateBalancer node.id d
    | NodeData.outboundTerminal d => validateOutbound node.id d false
    | NodeData.outboundProxy d => validateOutbound node.id d true
    | NodeData.simpleServer d => validateSimpleServer node.id d
    | NodeData.simpleRules d => validateSimpleRules node.id d
    | _ => []
  let srvMap := nodeServerMap nodes
  let transportIssues := edges.flatMap fun edge =>
    let srcServer := (mapGet srvMap edge.source).join
    let tgtServer := (mapGet srvMap edge.target).join
    if srcServer = tgtServer then []
    else
      match edge.data.bind EdgeData.transport with
      | some t => validateTransport edge.source t
      | Option.none => []
  let issues :=
    nodeIssues ++ transportIssues ++ validateStructure nodes edges ++
      validateConfig nodes
  let errors := issues.filter fun i => i.level = Level.error
  let warnings := issues.filter fun i => i.level = Level.warning
  let infos := issues.filter fun i => i.level = Level.info
  { valid := errors.length = 0
    errors := errors
    warnings := warnings
    infos := infos }

/-- `getNodeValidationStatus` is omitted (UI helper); the hook wrapper of
`useValidation.ts` appears below with claim C6. -/
def emptyValidResult : ValidationResult :=
  { valid := true, errors := [], warnings := [], infos := [] }

/-- The `try / catch` around `validateGraph` in `useValidation.ts`: a raised
internal failure degrades to the empty valid result, a delivered result is
passed through to the store. -/
def useValidationHandle (computed : Except String ValidationResult) :
    ValidationResult :=
  match computed with
  | Except.ok r => r
  | Except.error _ => emptyValidResult

/-! ## Wire-format document model (the JSON shapes of storage.ts) -/

def Security.toWire : Security → String
  | .none => "none"
  | .tls => "tls"
  | .reality => "reality"

/-- The serialized `streamSettings` block; sub-blocks reuse the transport
sub-settings shapes (fields present on the wire iff `some`). -/
structure StreamOut where
  network : String
  security : String
  wsSettings : Option WsSettings := Option.none
  grpcSettings : Option GrpcSettings := Option.none
  xhttpSettings : Option XhttpSettings := Option.none
  tlsSettings : Option TlsSettings := Option.none
  realitySettings : Option RealitySettings := Option.none
  deriving DecidableEq, Repr

structure ClientOut where
  id : Option String := Option.none
  password : Option String := Option.none
  email : Option String := Option.none
  level : Option Nat := Option.none
  deriving DecidableEq, Repr

structure InSettingsOut where
  clients : Option (List ClientOut) := Option.none
  decryption : Option String := Option.none
  method : Option String := Option.none
  password : Option String := Option.none
  auth : Option String := Option.none
  followRedirect : Option Bool := Option.none
  udp : Option Bool := Option.none
  deriving DecidableEq, Repr

structure OUserOut where
  id : Option String := Option.none
  encryption : Option String := Option.none
  security : Option String := Option.none
  deriving DecidableEq, Repr

structure VnextOut where
  address : String
  port : Nat
  users : List OUserOut := []
  deriving DecidableEq, Repr

structure SrvOut where
  address : String
  port : Nat
  password : Option String := Option.none
  method : Option String := Option.none
  deriving DecidableEq, Repr

/-- Outbound `settings`; `response` models `{response: {type: s}}`. -/
structure OutSettingsOut where
  domainStrategy : Option String := Option.none
  response : Option String := Option.none
  vnext : Option (List VnextOut) := Option.none
  servers : Option (List SrvOut) := Option.none
  deriving DecidableEq, Repr

structure XInbound where
  tag : String := ""
  protocol : String := ""
  listen : Option String := Option.none
  port : Option Nat := Option.none
  settings : Option InSettingsOut := Option.none
  sniffing : Option Bool := Option.none
  streamSettings : Option StreamOut := Option.none
  deriving DecidableEq, Repr

structure XOutbound where
  tag : String := ""
  protocol : String := ""
  settings : Option OutSettingsOut := Option.none
  streamSettings : Option StreamOut := Option.none
  deriving DecidableEq, Repr

structure XRule where
  type : Option String := Option.none
  domain : Option (List String) := Option.none
  ip : Option (List String) := Option.none
  port : Option String := Option.none
  protocol : Option (List String) := Option.none
  network : Option String := Option.none
  inboundTag : Option (List String) := Option.none
  outboundTag : Option String := Option.none
  balancerTag : Option String := Option.none
  deriving DecidableEq, Repr

/-- A serialized balancer; `strategy` models `{type: s}`; `selector` is
optional on the wire (an external document may omit it). -/
structure XBalancer where
  tag : String := ""
  selector : Option (List String) := Option.none
  strategy : Option String := Option.none
  deriving DecidableEq, Repr

structure RoutingOut where
  domainStrategy : String := "AsIs"
  rules : List XRule := []
  balancers : Option (List XBalancer) := Option.none
  deriving DecidableEq, Repr

structure XrayConfigDoc where
  loglevel : Option String := Option.none
  inbounds : Option (List XInbound) := Option.none
  outbounds : Option (List XOutbound) := Option.none
  routing : Option RoutingOut := Option.none
  deriving DecidableEq, Repr

structure ExportResult where
  filename : String
  config : XrayConfigDoc
  deriving DecidableEq, Repr

/-! ## Forward compiler (`src/utils/storage.ts`) -/

/-- `buildStreamSettings(transport)`: `none` is the omitted/empty block;
`raw` is serialized as `tcp`; the default `tcp`/`none` pair with no
sub-blocks collapses to the empty block. -/
def buildStreamSettings (transport : Option TransportSettings) : Option StreamOut :=
  match transport with
  | Option.none => Option.none
  | some t =>
      let stream : StreamOut :=
        { network := if t.network = Network.raw then "tcp" else t.network.toWire
          security := t.security.toWire
          wsSettings :=
            if t.network = Network.ws then
              t.wsSettings.map fun w =>
                { path := normStr w.path, headers := normList w.headers }
            else Option.none
          grpcSettings :=
            if t.network = Network.grpc then
              t.grpcSettings.map fun g =>
                { serviceName := normStr g.serviceName, multiMode := g.multiMode }
            else Option.none
          xhttpSettings :=
            if t.network = Network.xhttp then
              t.xhttpSettings.map fun x =>
                { path := normStr x.path, host := normStr x.host }
            else Option.none
          tlsSettings :=
            if t.security = Security.tls then
              t.tlsSettings.map fun x =>
                { serverName := normStr x.serverName, alpn := normList x.alpn
                  fingerprint := normStr x.fingerprint }
            else Option.none
          realitySettings :=
            if t.security = Security.reality then
              t.realitySettings.map fun r =>
                { serverName := normStr r.serverName, fingerprint := normStr r.fingerprint
                  publicKey := normStr r.publicKey, shortId := normStr r.shortId
                  spiderX := normStr r.spiderX }
            else Option.none }
      if stream.network = "tcp" && stream.security = "none" &&
          stream.wsSettings.isNone && stream.grpcSettings.isNone &&
          stream.xhttpSettings.isNone && stream.tlsSettings.isNone &&
          stream.realitySettings.isNone then
        Option.none
      else some stream

/-- `buildInboundSettings(data)`. -/
def buildInboundSettings (data : InboundData) : InSettingsOut :=
  match data.protocol with
  | InProto.vless =>
      let clients := (data.users.getD []).map fun u =>
        { id := u.id, email := some u.email, level := u.level : ClientOut }
      { clients := some (if clients.isEmpty then
          [{ id := some "", email := some "default" }] else clients)
        decryption := some "none" }
  | InProto.vmess =>
      let clients := (data.users.getD []).map fun u =>
        { id := u.id, email := some u.email, level := u.level : ClientOut }
      { clients := some (if clients.isEmpty then
          [{ id := some "", email := some "default" }] else clients) }
  | InProto.trojan =>
      let clients := (data.users.getD []).map fun u =>
        { password := u.password, email := some u.email, level := u.level : ClientOut }
      { clients := some (if clients.isEmpty then
          [{ password := some "", email := some "default" }] else clients) }
  | InProto.shadowsocks => { method := some "aes-256-gcm", password := some "" }
  | InProto.socks => { auth := some "noauth" }
  | InProto.http => {}
  | InProto.dokodemoDoor => { followRedirect := some true }

/-- `buildOutboundSettings(data)` (the protocol is a wire string; anything
outside the known set yields `undefined`). -/
def buildOutboundSettings (data : OutboundData) : Option OutSettingsOut :=
  if data.protocol = "freedom" then some { domainStrategy := some "UseIP" }
  else if data.protocol = "blackhole" then some { response := some "none" }
  else if data.protocol = "dns" then some {}
  else if data.protocol = "vless" then
    some { vnext := some [{ address := jsOrStr data.serverAddress ""
                            port := jsOrNat data.serverPort 443
                            users := [{ id := some "", encryption := some "none" }] }] }
  else if data.protocol = "vmess" then
    some { vnext := some [{ address := jsOrStr data.serverAddress ""
                            port := jsOrNat data.serverPort 443
                            users := [{ id := some "", security := some "auto" }] }] }
  else if data.protocol = "trojan" then
    some { servers := some [{ address := jsOrStr data.serverAddress ""
                              port := jsOrNat data.serverPort 443
                              password := some "" }] }
  else if data.protocol = "shadowsocks" then
    some { servers := some [{ address := jsOrStr data.serverAddress ""
                              port := jsOrNat data.serverPort 443
                              method := some "aes-256-gcm", password := some "" }] }
  else if data.protocol = "http" || data.protocol = "socks" then
    some { servers := some [{ address := jsOrStr data.serverAddress ""
                              port := jsOrNat data.serverPort 1080 }] }
  else Option.none

/-- `isCrossGroupEdge(edge, nodeServerMap)`. -/
def isCrossGroupEdge (edge : GraphEdge) (m : List (Nat × Option String)) : Bool :=
  (mapGet m edge.source).join ≠ (mapGet m edge.target).join

/-- `getIncomingTransport(nodeId, edges, nodeServerMap)`: the transport of
the first incoming cross-group edge that carries one. -/
def getIncomingTransport (nodeId : Nat) (edges : List GraphEdge)
    (m : List (Nat × Option String)) : Option TransportSettings :=
  edges.findSome? fun edge =>
    if edge.target = nodeId && isCrossGroupEdge edge m then
      edge.data.bind EdgeData.transport
    else Option.none

/-- `getOutgoingTransport(nodeId, edges, nodeServerMap)`. -/
def getOutgoingTransport (nodeId : Nat) (edges : List GraphEdge)
    (m : List (Nat × Option String)) : Option TransportSettings :=
  edges.findSome? fun edge =>
    if edge.source = nodeId && isCrossGroupEdge edge m then
      edge.data.bind EdgeData.transport
    else Option.none

/-- Unsorted outgoing-edge scan of storage.ts (`getOutgoingEdges` there does
not sort by priority). -/
def expOutgoing (nodeId : Nat) (edges : List GraphEdge) : List GraphEdge :=
  edges.filter fun e => e.source = nodeId

/-- The rule a routing node's data contributes (the predicate-copying part of
`buildRoutingRules`). -/
def ruleOfRouting (rd : RoutingData) : XRule :=
  { type := some "field"
    domain := normList rd.domain
    ip := normList rd.ip
    port := normStr rd.port
    protocol := normList rd.protocol
    network := rd.network.map NetFilter.toWire
    inboundTag := (normStr rd.inboundTag).map fun t => [t] }

/-- One step of the selector-completion fold of `buildRoutingRules`: an
outbound target's tag is appended when not already selected. -/
def selFoldStep (nodes : List GraphNode) (sel : List String)
    (edge : GraphEdge) : List String :=
  match getNodeById edge.target nodes with
  | some target =>
      (match target.data with
       | NodeData.outboundTerminal od =>
           if sel.contains od.tag then sel else sel ++ [od.tag]
       | NodeData.outboundProxy od =>
           if sel.contains od.tag then sel else sel ++ [od.tag]
       | _ => sel)
  | Option.none => sel

/-- The balancer entry `buildRoutingRules` emits for a balancer node. -/
def exportBalancer (nodes : List GraphNode) (edges : List GraphEdge)
    (balNode : GraphNode) : Option XBalancer :=
  match balNode.data with
  | NodeData.balancer bd =>
      let selector :=
        (expOutgoing balNode.id edges).foldl (selFoldStep nodes) bd.selector
      some { tag := bd.tag
             selector := some selector
             strategy :=
               if bd.strategy ≠ "random" then some bd.strategy
               else Option.none }
  | _ => Option.none

/-- The rules one outgoing edge of a routing node contributes. -/
def exportRouteTarget (rd : RoutingData) (nodes : List GraphNode)
    (edge : GraphEdge) : List XRule :=
  match getNodeById edge.target nodes with
  | Option.none => []
  | some target =>
      let rule := ruleOfRouting rd
      match target.data with
      | NodeData.balancer td => [{ rule with balancerTag := some td.tag }]
      | NodeData.outboundTerminal td => [{ rule with outboundTag := some td.tag }]
      | NodeData.outboundProxy td => [{ rule with outboundTag := some td.tag }]
      | NodeData.routing _ => []
      | _ => [rule]

/-- The rules `buildRoutingRules` emits for a routing node. -/
def exportRouteRules (nodes : List GraphNode) (edges : List GraphEdge)
    (routeNode : GraphNode) : List XRule :=
  match routeNode.data with
  | NodeData.routing rd =>
      (expOutgoing routeNode.id edges).flatMap (exportRouteTarget rd nodes)
  | _ => []

/-- The collapsed rules `buildRoutingRules` emits for an inbound node with a
direct edge to an outbound node. -/
def exportDirectRules (nodes : List GraphNode) (edges : List GraphEdge)
    (inNode : GraphNode) : List XRule :=
  match inNode.data with
  | NodeData.inbound d =>
      (expOutgoing inNode.id edges).flatMap fun edge =>
        match getNodeById edge.target nodes with
        | Option.none => []
        | some target =>
            match target.data with
            | NodeData.outboundTerminal td =>
                [{ type := some "field", inboundTag := some [d.tag]
                   outboundTag := some td.tag }]
            | NodeData.outboundProxy td =>
                [{ type := some "field", inboundTag := some [d.tag]
                   outboundTag := some td.tag }]
            | _ => []
  | _ => []

/-- `buildRoutingRules(nodes, edges)`. -/
def buildRoutingRules (nodes : List GraphNode) (edges : List GraphEdge) :
    List XRule × List XBalancer :=
  let balancers :=
    (nodes.filter fun n => n.data.nodeType = "balancer").filterMap
      (exportBalancer nodes edges)
  let routingRules :=
    (nodes.filter fun n => n.data.nodeType = "routing").flatMap
      (exportRouteRules nodes edges)
  let directRules :=
    (nodes.filter fun n => n.data.nodeType = "inbound").flatMap
      (exportDirectRules nodes edges)
  (routingRules ++ directRules, balancers)

/-- The inbound wire entry `buildSingleConfig` emits for an inbound node. -/
def exportInboundEntry (node : GraphNode) (d : InboundData)
    (allEdges : List GraphEdge) (m : List (Nat × Option String)) : XInbound :=
  let edgeTransport := getIncomingTransport node.id allEdges m
  let streamSettings := buildStreamSettings (edgeTransport.orElse fun _ => d.transport)
  { tag := d.tag
    protocol := d.protocol.toWire
    listen := some d.listen
    port := some d.port
    settings := some (buildInboundSettings d)
    sniffing := if d.sniffing.getD false then some true else Option.none
    streamSettings := streamSettings }

/-- The outbound wire entry `buildSingleConfig` emits for an outbound node. -/
def exportOutboundEntry (node : GraphNode) (d : OutboundData) (isProxy : Bool)
    (allEdges : List GraphEdge) (m : List (Nat × Option String)) : XOutbound :=
  let edgeTransport :=
    if isProxy then getOutgoingTransport node.id allEdges m else Option.none
  let streamSettings := buildStreamSettings (edgeTransport.orElse fun _ => d.transport)
  { tag := d.tag
    protocol := d.protocol
    settings := buildOutboundSettings d
    streamSettings := streamSettings }

/-- `buildSingleConfig(nodes, edges, allEdges, nodeServerMap, filename)`. -/
def buildSingleConfig (nodes : List GraphNode) (edges allEdges : List GraphEdge)
    (m : List (Nat × Option String)) (filename : String) : ExportResult :=
  let inbounds := nodes.filterMap fun node =>
    match node.data with
    | NodeData.inbound d => some (exportInboundEntry node d allEdges m)
    | _ => Option.none
  let outbounds := nodes.filterMap fun node =>
    match node.data with
    | NodeData.outboundTerminal d => some (exportOutboundEntry node d false allEdges m)
    | NodeData.outboundProxy d => some (exportOutboundEntry node d true allEdges m)
    | _ => Option.none
  let rb := buildRoutingRules nodes edges
  { filename := filename
    config :=
      { loglevel := some "warning"
        inbounds := some inbounds
        outbounds := some outbounds
        routing := some
          { domainStrategy := "AsIs"
            rules := rb.1
            balancers := if rb.2.isEmpty then Option.none else some rb.2 } } }

/-- The server-name sanitizer of `exportConfig`: lowercase, collapse every
run of characters outside `[a-z0-9]` to one dash, then strip trailing
dashes. -/
def collapseDashes (ok : Char → Bool) : List Char → List Char
  | [] => []
  | c :: t =>
      if ok c then c :: collapseDashes ok t
      else '-' :: collapseDashes ok (t.dropWhile fun x => !ok x)
termination_by l => l.length
decreasing_by
  · simp
  · have := (List.dropWhile_suffix (l := t) (fun x => !ok x)).sublist.length_le
    simp
    omega

def sanitizeName (name : String) : String :=
  let ok : Char → Bool := fun c => c.isLower || c.isDigit
  String.mk
    (((collapseDashes ok (jsToLower name).data).reverse.dropWhile (· = '-')).reverse)

/-- Group-bucket insertion preserving first-seen order of group keys. -/
def groupAdd (m : List (String × List GraphNode)) (key : String) (n : GraphNode) :
    List (String × List GraphNode) :=
  match m with
  | [] => [(key, [n])]
  | (k, ns) :: rest =>
      if k = key then (k, ns ++ [n]) :: rest else (k, ns) :: groupAdd rest key n

/-- `exportConfig(nodes, edges, servers)` (advanced mode; the optional
`mode === 'simple'` branch dispatching to `exportSimpleConfig` is outside the
claims and is not modelled). -/
def exportConfig (nodes : List GraphNode) (edges : List GraphEdge)
    (servers : List Server) : List ExportResult :=
  let configNodes := nodes.filter fun n => n.data.nodeType ≠ "device"
  let m := nodeServerMap nodes
  let serverMap := servers.foldl (fun sm s => mapSet sm s.id s) []
  let grouped := configNodes.foldl
    (fun (acc : List (String × List GraphNode) × List GraphNode) node =>
      match node.data.serverIdOf with
      | some sid =>
          if (mapGet serverMap sid).isSome then (groupAdd acc.1 sid node, acc.2)
          else (acc.1, acc.2 ++ [node])
      | Option.none => (acc.1, acc.2 ++ [node]))
    ([], [])
  let nodesByServer := grouped.1
  let unassigned := grouped.2
  if nodesByServer.isEmpty then
    [buildSingleConfig configNodes edges edges m "config.json"]
  else
    let results := nodesByServer.map fun g =>
      let serverNodeIds := g.2.map GraphNode.id
      let serverEdges := edges.filter fun e =>
        serverNodeIds.contains e.source && serverNodeIds.contains e.target
      let safeName :=
        sanitizeName (((mapGet serverMap g.1).map Server.name).getD "")
      buildSingleConfig g.2 serverEdges edges m (safeName ++ "_config.json")
    results ++
      (if unassigned.isEmpty then []
       else
         let unassignedIds := unassigned.map GraphNode.id
         let unassignedEdges := edges.filter fun e =>
           unassignedIds.contains e.source && unassignedIds.contains e.target
         [buildSingleConfig unassigned unassignedEdges edges m "unassigned_config.json"])

/-! ## Reverse compiler (`importXrayConfig` in validation.ts's module) -/

/-- `INBOUND_PROTOCOLS` (import side, wire strings). -/
def knownInboundProto (p : String) : Bool :=
  p = "http" || p = "socks" || p = "vless" || p = "vmess" || p = "trojan" ||
    p = "shadowsocks" || p = "dokodemo-door"

def inProtoFromWire (p : String) : Option InProto :=
  if p = "http" then some InProto.http
  else if p = "socks" then some InProto.socks
  else if p = "vless" then some InProto.vless
  else if p = "vmess" then some InProto.vmess
  else if p = "trojan" then some InProto.trojan
  else if p = "shadowsocks" then some InProto.shadowsocks
  else if p = "dokodemo-door" then some InProto.dokodemoDoor
  else Option.none

def netFromWire (s : String) : Option Network :=
  if s = "raw" then some Network.raw
  else if s = "ws" then some Network.ws
  else if s = "grpc" then some Network.grpc
  else if s = "xhttp" then some Network.xhttp
  else Option.none

def secFromWire (s : String) : Option Security :=
  if s = "none" then some Security.none
  else if s = "tls" then some Security.tls
  else if s = "reality" then some Security.reality
  else Option.none

/-- `parseTransport(stream)`. -/
def parseTransport (stream : Option StreamOut) : TransportSettings :=
  match stream with
  | Option.none => defaultTransport
  | some s =>
      let network := if s.network = "" then "tcp" else s.network
      let mappedNetwork := if network = "tcp" then "raw" else network
      let security := if s.security = "" then "none" else s.security
      let t : TransportSettings :=
        { network := (netFromWire mappedNetwork).getD Network.raw
          security := (secFromWire security).getD Security.none }
      let t :=
        if network = "ws" && s.wsSettings.isSome then
          { t with wsSettings := s.wsSettings.map fun ws =>
              { path := normStr ws.path, headers := ws.headers } }
        else t
      let t :=
        if network = "grpc" && s.grpcSettings.isSome then
          { t with grpcSettings := s.grpcSettings.map fun g =>
              { serviceName := normStr g.serviceName, multiMode := g.multiMode } }
        else t
      let t :=
        if network = "xhttp" && s.xhttpSettings.isSome then
          { t with xhttpSettings := s.xhttpSettings.map fun x =>
              { path := normStr x.path, host := normStr x.host } }
        else t
      let t :=
        if security = "tls" && s.tlsSettings.isSome then
          { t with tlsSettings := s.tlsSettings.map fun x =>
              { serverName := normStr x.serverName, alpn := x.alpn
                fingerprint := normStr x.fingerprint } }
        else t
      let t :=
        if security = "reality" && s.realitySettings.isSome then
          { t with realitySettings := s.realitySettings.map fun r =>
              { serverName := normStr r.serverName
                fingerprint := normStr r.fingerprint
                publicKey := normStr r.publicKey
                shortId := normStr r.shortId
                spiderX := normStr r.spiderX } }
        else t
      t

/-- `parseInboundUsers(settings, protocol)`. -/
def parseInboundUsers (settings : Option InSettingsOut) (protocol : String) :
    List User :=
  match settings with
  | Option.none => []
  | some st =>
      match st.clients with
      | Option.none => []
      | some clients =>
          clients.map fun c =>
            { email := jsOrStr c.email ""
              id := if protocol = "trojan" then Option.none else some (jsOrStr c.id "")
              password :=
                if protocol = "trojan" then some (jsOrStr c.password "") else Option.none
              level := c.level }

/-- `parseInbound(inbound)`; `freshTag` stands for the random
`input-${uuidv4().slice(0, 4)}` fallback for an absent tag. -/
def parseInbound (ib : XInbound) (freshTag : String) : InboundData :=
  let protocol := if knownInboundProto ib.protocol then ib.protocol else "vless"
  { tag := if ib.tag = "" then freshTag else ib.tag
    protocol := (inProtoFromWire protocol).getD InProto.vless
    listen := jsOrStr ib.listen "0.0.0.0"
    port := jsOrNat ib.port 443
    sniffing := some (ib.sniffing.getD false)
    users := some (parseInboundUsers ib.settings protocol)
    transport := some (parseTransport ib.streamSettings) }

/-- `extractOutboundAddress(settings, protocol)`. -/
def extractOutboundAddress (settings : Option OutSettingsOut) (protocol : String) :
    Option String × Option Nat :=
  match settings with
  | Option.none => (Option.none, Option.none)
  | some st =>
      let viaVnext : Option (Option String × Option Nat) :=
        if protocol = "vless" || protocol = "vmess" then
          match st.vnext with
          | some (v :: _) => some (normStr (some v.address), normNat (some v.port))
          | _ => Option.none
        else Option.none
      match viaVnext with
      | some r => r
      | Option.none =>
          match st.servers with
          | some (v :: _) => (normStr (some v.address), normNat (some v.port))
          | _ => (Option.none, Option.none)

/-- `parseOutbound(outbound)`; `freshTag` models the random
`output-${uuidv4().slice(0, 4)}` fallback. -/
def parseOutbound (ob : XOutbound) (freshTag : String) : OutboundData :=
  let protocol := jsOrStr (some ob.protocol) "freedom"
  let addr := extractOutboundAddress ob.settings protocol
  let isTerminal := isTerminalProto protocol
  { tag := if ob.tag = "" then freshTag else ob.tag
    protocol := protocol
    serverAddress := if isTerminal then Option.none else addr.1
    serverPort := if isTerminal then Option.none else addr.2
    transport :=
      if isTerminal then Option.none else some (parseTransport ob.streamSettings) }

/-- `parseRoutingRule(rule, index)`. -/
def parseRoutingRule (rule : XRule) (index : Nat) : RoutingData :=
  { tag := "rule-" ++ toString (index + 1)
    domain := rule.domain
    ip := rule.ip
    port := rule.port
    protocol := rule.protocol
    network :=
      if rule.network = some "tcp" then some NetFilter.tcp
      else if rule.network = some "udp" then some NetFilter.udp
      else Option.none
    inboundTag :=
      match rule.inboundTag with
      | some (t :: _) => some t
      | _ => Option.none }

/-- `detectMode(config)`. -/
def detectMode (config : XrayConfigDoc) : String :=
  let outbounds := config.outbounds.getD []
  let hasProxyOutbound := outbounds.any fun o => !isTerminalProto o.protocol
  let inbounds := config.inbounds.getD []
  let uniquePorts := (inbounds.map XInbound.port).dedup
  if hasProxyOutbound && inbounds.length > 1 && uniquePorts.length > 1 then
    "infrastructure"
  else "client"

structure ImportOptions where
  createRoutingNodes : Bool := true
  autoLayoutOn : Bool := true
  forceMode : Option String := Option.none
  deriving DecidableEq, Repr

structure ImportSummary where
  inboundCount : Nat
  outboundCount : Nat
  routingCount : Nat
  balancerCount : Nat
  edgeCount : Nat
  warnings : List String
  mode : String
  deriving DecidableEq, Repr

structure ImportResult where
  nodes : List GraphNode
  edges : List GraphEdge
  mode : String
  summary : ImportSummary
  deriving DecidableEq, Repr

/-- The mutable state of the import pipeline; `ctr` is the uuidv4 supply (one
fresh number per call). -/
structure ImpState where
  nodes : List GraphNode := []
  edges : List GraphEdge := []
  warnings : List String := []
  tagToNodeId : List (String × Nat) := []
  ctr : Nat := 0
  deriving Repr

/-- The warning recorded for an inbound entry whose protocol is not
recognised (the entry is skipped, not fatal). -/
def unknownProtoWarning (p : String) : String :=
  "Unknown inbound protocol \"" ++ p ++ "\" (skipped)"

/-- Whether a graph node is an inbound node (the predicate the import
summary counts with). -/
def isInboundNode (n : GraphNode) : Bool := n.data.nodeType = "inbound"

/-- The per-entry body of import stage 1: skip an unknown protocol with a
warning, otherwise create the inbound node and register its tag. -/
def impInboundStep (st : ImpState) (ib : XInbound) : ImpState :=
  if !knownInboundProto ib.protocol then
    { st with warnings := st.warnings ++ [unknownProtoWarning ib.protocol] }
  else
    let nodeId := st.ctr
    let freshTag := "input-" ++ toString (st.ctr + 1)
    let usedFresh := ib.tag = ""
    let data := parseInbound ib freshTag
    { st with
        ctr := if usedFresh then st.ctr + 2 else st.ctr + 1
        tagToNodeId := mapSet st.tagToNodeId data.tag nodeId
        nodes := st.nodes ++ [{ id := nodeId, data := NodeData.inbound data }] }

/-- Import stage 1: parse inbounds, skipping unknown protocols with a
warning. -/
def impInbounds (inbounds : List XInbound) (st : ImpState) : ImpState :=
  inbounds.foldl impInboundStep st

/-- The per-entry body of import stage 2: create the outbound node (terminal
or proxy by protocol) and register its tag. -/
def impOutboundStep (st : ImpState) (ob : XOutbound) : ImpState :=
  let protocol := jsOrStr (some ob.protocol) "freedom"
  let isTerminal := isTerminalProto protocol
  let nodeId := st.ctr
  let freshTag := "output-" ++ toString (st.ctr + 1)
  let usedFresh := ob.tag = ""
  let data := parseOutbound ob freshTag
  { st with
      ctr := if usedFresh then st.ctr + 2 else st.ctr + 1
      tagToNodeId := mapSet st.tagToNodeId data.tag nodeId
      nodes := st.nodes ++
        [{ id := nodeId
           data := if isTerminal then NodeData.outboundTerminal data
                   else NodeData.outboundProxy data }] }

/-- Import stage 2: parse outbounds. -/
def impOutbounds (outbounds : List XOutbound) (st : ImpState) : ImpState :=
  outbounds.foldl impOutboundStep st

/-- One step of the selector-pattern edge scan of import stage 3: for a tag
map entry matching the pattern (by equality or prefix) whose node is an
outbound kind, append a balancer→outbound edge. -/
def balancerEdgeScanStep (nodeId : Nat) (selectorPattern : String)
    (st : ImpState) (kv : String × Nat) : ImpState :=
  if kv.1 = selectorPattern || strStartsWith kv.1 selectorPattern then
    match getNodeById kv.2 st.nodes with
    | some targetNode =>
        if targetNode.data.nodeType = "outbound-terminal" ||
            targetNode.data.nodeType = "outbound-proxy" then
          { st with
              ctr := st.ctr + 1
              edges := st.edges ++
                [{ id := st.ctr, source := nodeId, target := kv.2 }] }
        else st
    | Option.none => st
  else st

/-- The per-balancer body of import stage 3 (node creation plus the
selector-pattern edge scan over the tag map, which by then already contains
this balancer's own tag). -/
def impBalancerStep (st : ImpState) (bal : XBalancer) (sel : List String) : ImpState :=
  let nodeId := st.ctr
  let data : BalancerData :=
    { tag := bal.tag
      strategy := jsOrStr bal.strategy "random"
      selector := sel }
  let st :=
    { st with
        ctr := st.ctr + 1
        tagToNodeId := mapSet st.tagToNodeId data.tag nodeId
        nodes := st.nodes ++ [{ id := nodeId, data := NodeData.balancer data }] }
  sel.foldl
    (fun (st : ImpState) selectorPattern =>
      st.tagToNodeId.foldl (balancerEdgeScanStep nodeId selectorPattern) st)
    st

/-- Import stage 3: parse balancers and wire selector-matched edges.  The
source iterates `balancer.selector` unguarded, so a balancer entry without a
selector array raises a TypeError (`Except.error`).  The selector used for
the node data is `balancer.selector || []`, which coincides with the matched
list whenever iteration does not throw. -/
def impBalancers (balancers : List XBalancer) (st : ImpState) :
    Except String ImpState :=
  balancers.foldlM
    (fun (st : ImpState) bal =>
      match bal.selector with
      | Option.none => Except.error "TypeError: balancer.selector is not iterable"
      | some selector => Except.ok (impBalancerStep st bal selector))
    st

/-- Stage 4 helper: wire each resolvable `inboundTag` entry to the rule's
routing node. -/
def ruleInEdges (routeNodeId : Nat) (inboundTag : Option (List String))
    (st : ImpState) : ImpState :=
  match inboundTag with
  | some inTags =>
      inTags.foldl
        (fun (st : ImpState) inTag =>
          match mapGet st.tagToNodeId inTag with
          | some inNodeId =>
              { st with
                  ctr := st.ctr + 1
                  edges := st.edges ++
                    [{ id := st.ctr, source := inNodeId, target := routeNodeId }] }
          | Option.none => st)
        st
  | Option.none => st

/-- Stage 4 helper: wire the rule's routing node to its `outboundTag`
target, or warn when the tag resolves to no node. -/
def ruleOutEdge (i routeNodeId : Nat) (outboundTag : Option String)
    (st : ImpState) : ImpState :=
  match normStr outboundTag with
  | some t =>
      (match mapGet st.tagToNodeId t with
       | some outNodeId =>
           { st with
               ctr := st.ctr + 1
               edges := st.edges ++
                 [{ id := st.ctr, source := routeNodeId, target := outNodeId }] }
       | Option.none =>
           { st with warnings := st.warnings ++
               ["Routing rule " ++ toString (i + 1) ++ ": outboundTag \"" ++
                 t ++ "\" not found"] })
  | Option.none => st

/-- Stage 4 helper: wire the rule's routing node to its `balancerTag`
target, or warn when the tag resolves to no node. -/
def ruleBalEdge (i routeNodeId : Nat) (balancerTag : Option String)
    (st : ImpState) : ImpState :=
  match normStr balancerTag with
  | some t =>
      (match mapGet st.tagToNodeId t with
       | some balNodeId =>
           { st with
               ctr := st.ctr + 1
               edges := st.edges ++
                 [{ id := st.ctr, source := routeNodeId, target := balNodeId }] }
       | Option.none =>
           { st with warnings := st.warnings ++
               ["Routing rule " ++ toString (i + 1) ++ ": balancerTag \"" ++
                 t ++ "\" not found"] })
  | Option.none => st

/-- Stage 4 helper: without routing nodes, collapse a rule into direct
`inbound → outbound` edges. -/
def ruleCollapsed (rule : XRule) (st : ImpState) : ImpState :=
  match normStr rule.outboundTag, rule.inboundTag with
  | some outTag, some inTags =>
      inTags.foldl
        (fun (st : ImpState) inTag =>
          match mapGet st.tagToNodeId inTag, mapGet st.tagToNodeId outTag with
          | some inNodeId, some outNodeId =>
              { st with
                  ctr := st.ctr + 1
                  edges := st.edges ++
                    [{ id := st.ctr, source := inNodeId, target := outNodeId }] }
          | _, _ => st)
        st
  | _, _ => st

/-- The per-rule body of import stage 4 (the pair carries the rule's
index). -/
def impRuleStep (createRoutingNodes : Bool) (st : ImpState)
    (ir : Nat × XRule) : ImpState :=
  let i := ir.1
  let rule := ir.2
  if createRoutingNodes then
    let routeNodeId := st.ctr
    let routeData := parseRoutingRule rule i
    let st :=
      { st with
          ctr := st.ctr + 1
          nodes := st.nodes ++
            [{ id := routeNodeId, data := NodeData.routing routeData }] }
    ruleBalEdge i routeNodeId rule.balancerTag
      (ruleOutEdge i routeNodeId rule.outboundTag
        (ruleInEdges routeNodeId rule.inboundTag st))
  else
    ruleCollapsed rule st

/-- Import stage 4: routing rules — one routing node per rule when
`createRoutingNodes`, else collapsed `inbound → outbound` edges. -/
def impRules (rules : List XRule) (createRoutingNodes : Bool) (st : ImpState) :
    ImpState :=
  rules.enum.foldl (impRuleStep createRoutingNodes) st

/-- `importXrayConfig(jsonString, options)` on the parsed document
(`Option.none` models an unparseable input string).  The purely cosmetic
`autoLayout` pass writes only node positions and is omitted. -/
def importXrayConfig (doc : Option XrayConfigDoc) (options : ImportOptions) :
    Except String ImportResult :=
  match doc with
  | Option.none => Except.error "Invalid JSON: could not parse the file."
  | some config =>
      if config.inbounds.isNone && config.outbounds.isNone then
        Except.error "Invalid xray config: must have inbounds or outbounds."
      else
        let st : ImpState := {}
        let st := impInbounds (config.inbounds.getD []) st
        let st := impOutbounds (config.outbounds.getD []) st
        match impBalancers ((config.routing.bind RoutingOut.balancers).getD []) st with
        | Except.error e => Except.error e
        | Except.ok st =>
            let rules := (config.routing.map RoutingOut.rules).getD []
            let st := impRules rules options.createRoutingNodes st
            let mode :=
              match options.forceMode with
              | some m => m
              | Option.none => detectMode config
            let st :=
              if rules.any (fun r =>
                  match normStr r.type with
                  | some t => t ≠ "field"
                  | Option.none => false) then
                { st with warnings := st.warnings ++
                    ["Advanced routing rule types may need manual adjustment"] }
              else st
            let routingCount :=
              (st.nodes.filter fun n => n.data.nodeType = "routing").length
            let balancerCount :=
              (st.nodes.filter fun n => n.data.nodeType = "balancer").length
            let inboundCount := (st.nodes.filter isInboundNode).length
            let outboundCount :=
              (st.nodes.filter fun n =>
                n.data.nodeType = "outbound-terminal" ||
                  n.data.nodeType = "outbound-proxy").length
            Except.ok
              { nodes := st.nodes
                edges := st.edges
                mode := mode
                summary :=
                  { inboundCount := inboundCount
                    outboundCount := outboundCount
                    routingCount := routingCount
                    balancerCount := balancerCount
                    edgeCount := st.edges.length
                    warnings := st.warnings
                    mode := mode } }

/-! ## Concrete graphs and inputs used by the claims -/

/-- A RegExp engine that matches nothing; the graphs below contain no
`regexp:` rules, so the engine is never consulted. -/
def rxNone : String → String → Bool := fun _ _ => false

/-! ## Claim theorems -/

/-- The adjacency table exactly as the specification states it
(§4.1): legal target node types per source node type. -/
def specAllowedPair (s t : String) : Bool :=
  (s = "device" && (t = "inbound" || t = "outbound-proxy")) ||
  (s = "inbound" &&
    (t = "routing" || t = "balancer" || t = "outbound-terminal" || t = "outbound-proxy")) ||
  (s = "routing" &&
    (t = "routing" || t = "balancer" || t = "outbound-terminal" || t = "outbound-proxy")) ||
  (s = "balancer" && (t = "outbound-terminal" || t = "outbound-proxy")) ||
  (s = "outbound-proxy" && t = "inbound")

/-- C10: `isValidConnection` accepts exactly the node-type pairs of the fixed
adjacency table (device→{inbound, outbound-proxy}; inbound→{routing,
balancer, outbound-terminal, outbound-proxy}; routing→{routing, balancer,
outbound-terminal, outbound-proxy}; balancer→{outbound-terminal,
outbound-proxy}; outbound-proxy→{inbound}); every rejected pair carries a
reason, and a terminal outbound as source is always invalid. -/
theorem isValidConnection_matches_table (sn tn : GraphNode) :
    ((isValidConnection sn tn).valid =
        specAllowedPair sn.data.nodeType tn.data.nodeType) ∧
      ((isValidConnection sn tn).reason.isSome = !(isValidConnection sn tn).valid) ∧
      specAllowedPair "outbound-terminal" tn.data.nodeType = false := by
  obtain ⟨sid, sd⟩ := sn
  obtain ⟨tid, td⟩ := tn
  cases sd <;> cases td <;>
    simp [isValidConnection, specAllowedPair, allowedTargets, NodeData.nodeType]

/-- Three routing nodes in a directed ring. -/
def routingRingNodes : List GraphNode :=
  [ { id := 1, data := NodeData.routing { tag := "r1" } },
    { id := 2, data := NodeData.routing { tag := "r2" } },
    { id := 3, data := NodeData.routing { tag := "r3" } } ]

def routingRingEdges : List GraphEdge :=
  [ { id := 10, source := 1, target := 2 },
    { id := 11, source := 2, target := 3 },
    { id := 12, source := 3, target := 1 } ]

/-- The same ring expressed through cross-server proxy hops:
`outbound-proxy(A) → inbound(B) → outbound-proxy(B) → inbound(A) →
outbound-proxy(A)`. -/
def proxyRingNodes : List GraphNode :=
  [ { id := 1, data := NodeData.outboundProxy { tag := "proxyA", protocol := "vless", serverAddress := some "a.example", serverPort := some 443 } },
    { id := 2, data := NodeData.inbound { tag := "inB", protocol := InProto.vless, port := 443 } },
    { id := 3, data := NodeData.outboundProxy { tag := "proxyB", protocol := "vless", serverAddress := some "b.example", serverPort := some 443 } },
    { id := 4, data := NodeData.inbound { tag := "inA", protocol := InProto.vless, port := 8443 } } ]

def proxyRingEdges : List GraphEdge :=
  [ { id := 10, source := 1, target := 2 },
    { id := 11, source := 2, target := 3 },
    { id := 12, source := 3, target := 4 },
    { id := 13, source := 4, target := 1 } ]

def cycleMessage : String :=
  "Cycle detected in graph — traffic would loop indefinitely"

/-- C5: a 3-node `routing → routing → routing` ring yields a cycle error,
while the ring routed through `outbound-proxy → inbound` hops yields none,
because those edges are excluded from the cycle-detection traversal. -/
theorem validateGraph_cycle_detection :
    ((validateGraph routingRingNodes routingRingEdges).errors.any
        (fun i => i.message = cycleMessage)) = true ∧
      ((validateGraph proxyRingNodes proxyRingEdges).errors.any
        (fun i => i.message = cycleMessage)) = false := by
  exact ⟨by decide, by decide⟩

/-- The 3-node scenario graph of C4: inbound `in1` (port 443, vless) →
routing (`domain:["domain:example.com"]`) → outbound-proxy `out1` with no
outgoing edge. -/
def scenarioNodes : List GraphNode :=
  [ { id := 1, data := NodeData.inbound { tag := "in1", protocol := InProto.vless, port := 443 } },
    { id := 2, data := NodeData.routing { tag := "r1", domain := some ["domain:example.com"] } },
    { id := 3, data := NodeData.outboundProxy { tag := "out1", protocol := "vless" } } ]

def scenarioEdges : List GraphEdge :=
  [ { id := 10, source := 1, target := 2 },
    { id := 11, source := 2, target := 3 } ]

def scenarioInput : SimulationInput :=
  { domain := "example.com", protocol := "tcp", port := 443, inboundTag := "in1" }

/-- C4, counterexample: on the scenario graph the run does NOT satisfy the
claimed conjunction — `finalOutbound` is the proxy's tag `"out1"`, not
undefined (`runSimulation` line `finalOutbound: data.tag` in the
outbound-proxy stop branch). -/
theorem scenario_finalOutbound_not_none :
    ¬((runSimulation rxNone scenarioInput scenarioNodes scenarioEdges []).success = true ∧
      (runSimulation rxNone scenarioInput scenarioNodes scenarioEdges []).path.length = 3 ∧
      ((runSimulation rxNone scenarioInput scenarioNodes scenarioEdges []).path.getLast?).map
          SimulationStep.nodeType = some "outbound-proxy" ∧
      (runSimulation rxNone scenarioInput scenarioNodes scenarioEdges []).finalOutbound =
        Option.none) := by
  decide

/-- C4, amended: the scenario run returns success, a 3-step path whose last
step is an `outbound-proxy`, and `finalOutbound = "out1"` (the proxy's tag). -/
theorem scenario_run_characterization :
    (runSimulation rxNone scenarioInput scenarioNodes scenarioEdges []).success = true ∧
      (runSimulation rxNone scenarioInput scenarioNodes scenarioEdges []).path.length = 3 ∧
      ((runSimulation rxNone scenarioInput scenarioNodes scenarioEdges []).path.getLast?).map
          SimulationStep.nodeType = some "outbound-proxy" ∧
      (runSimulation rxNone scenarioInput scenarioNodes scenarioEdges []).finalOutbound =
        some "out1" := by
  decide

/-- C3 counterexample graph: a balancer with selector `["x"]` whose outgoing
edges lead to terminal `other` (priority 1) and terminal `axb` (priority 2);
`axb` merely contains `x` as an interior substring. -/
def substrNodes : List GraphNode :=
  [ { id := 1, data := NodeData.inbound { tag := "in1", protocol := InProto.vless, port := 443 } },
    { id := 2, data := NodeData.balancer { tag := "b1", strategy := "roundRobin", selector := ["x"] } },
    { id := 3, data := NodeData.outboundTerminal { tag := "other", protocol := "freedom" } },
    { id := 4, data := NodeData.outboundTerminal { tag := "axb", protocol := "blackhole" } } ]

def substrEdges : List GraphEdge :=
  [ { id := 10, source := 1, target := 2 },
    { id := 11, source := 2, target := 3 },
    { id := 12, source := 2, target := 4 } ]

def substrBalancer : BalancerData :=
  { tag := "b1", strategy := "roundRobin", selector := ["x"] }

/-- C3, counterexample: the edge to `axb` — whose tag neither equals `"x"`
nor has `"x"` as a prefix — IS the (sole) balancer candidate, because the
source filters with `targetData.tag.includes(sel)` (substring containment),
and the simulation therefore resolves to `axb` rather than falling back to
the first outgoing edge (`other`). -/
theorem balancer_candidate_interior_substring :
    (balancerValidTargets substrBalancer (getOutgoingEdges 2 substrEdges)
        substrNodes).map GraphEdge.id = [12] ∧
      ("axb" = "x") = False ∧
      strStartsWith "axb" "x" = false ∧
      (runSimulation rxNone scenarioInput substrNodes substrEdges []).finalOutbound =
        some "axb" := by
  refine ⟨by decide, by simp, by decide, by decide⟩

/-- C3, amended: at a balancer node the candidate outgoing edges are exactly
those whose target node resolves and whose target tag equals a selector
entry or contains one as a substring; with an empty selector list every
resolving outgoing edge is a candidate.  (`balancerValidTargets` is the
`validTargets` filter of `runSimulation`'s balancer branch.) -/
theorem balancerValidTargets_characterization (bd : BalancerData)
    (outgoing : List GraphEdge) (nodes : List GraphNode) (e : GraphEdge) :
    e ∈ balancerValidTargets bd outgoing nodes ↔
      e ∈ outgoing ∧ ∃ tn, getNodeById e.target nodes = some tn ∧
        (bd.selector = [] ∨ ∃ sel ∈ bd.selector,
          (tn.data.tagOf).getD "" = sel ∨
            strContains ((tn.data.tagOf).getD "") sel = true) := by
  unfold balancerValidTargets
  rw [List.mem_filter]
  refine and_congr_right fun _ => ?_
  cases h : getNodeById e.target nodes with
  | none => simp [h]
  | some tn =>
      simp only [h, Option.some.injEq]
      by_cases hsel : bd.selector.isEmpty
      · rw [List.isEmpty_iff] at hsel
        simp [hsel]
      · rw [List.isEmpty_iff] at hsel
        simp [hsel, List.any_eq_true]

/-- C2 counterexample graph: inbound → balancer (strategy `random`, empty
selector) → two terminal outbounds. -/
def randomNodes : List GraphNode :=
  [ { id := 1, data := NodeData.inbound { tag := "in1", protocol := InProto.vless, port := 443 } },
    { id := 2, data := NodeData.balancer { tag := "b1", strategy := "random", selector := [] } },
    { id := 3, data := NodeData.outboundTerminal { tag := "t1", protocol := "freedom" } },
    { id := 4, data := NodeData.outboundTerminal { tag := "t2", protocol := "blackhole" } } ]

def randomEdges : List GraphEdge :=
  [ { id := 10, source := 1, target := 2 },
    { id := 11, source := 2, target := 3 },
    { id := 12, source := 2, target := 4 } ]

/-- C2, counterexample: two invocations that differ only in the ambient
`Math.random()` draw return different results on a graph whose traced path
traverses a `random`-strategy balancer — the run is not deterministic. -/
theorem runSimulation_random_draw_dependent :
    runSimulation rxNone scenarioInput randomNodes randomEdges [0] ≠
      runSimulation rxNone scenarioInput randomNodes randomEdges [1] := by
  decide

/-- No balancer node in the list carries the `random` strategy. -/
def noRandomBalancer (nodes : List GraphNode) : Bool :=
  nodes.all fun n =>
    match n.data with
    | NodeData.balancer bd => bd.strategy ≠ "random"
    | _ => true

theorem getNodeById_mem {nodeId : Nat} {nodes : List GraphNode} {n : GraphNode}
    (h : getNodeById nodeId nodes = some n) : n ∈ nodes :=
  List.mem_of_find?_eq_some h

/-- The walk's result does not depend on the entropy stream when no
`random`-strategy balancer exists among the nodes. -/
theorem simLoop_rands_invariant (rx : String → String → Bool)
    (input : SimulationInput) (nodes : List GraphNode) (edges : List GraphEdge)
    (hnr : noRandomBalancer nodes = true) :
    ∀ (fuel : Nat) (cur : Option GraphNode) (visited : List Nat)
      (path : List SimulationStep) (hN hE : List Nat) (r₁ r₂ : List Nat),
      (∀ n, cur = some n → n ∈ nodes) →
      simLoop rx input nodes edges fuel cur visited path hN hE r₁ =
        simLoop rx input nodes edges fuel cur visited path hN hE r₂ := by
  intro fuel
  induction fuel with
  | zero => intro cur visited path hN hE r₁ r₂ _; rfl
  | succ fuel ih =>
      intro cur visited path hN hE r₁ r₂ hmem
      cases cur with
      | none => rfl
      | some n =>
          obtain ⟨nid, nd⟩ := n
          have hn : (⟨nid, nd⟩ : GraphNode) ∈ nodes := hmem _ rfl
          by_cases hv : visited.contains nid = true
          · simp only [simLoop, if_pos hv]
          · simp only [simLoop, if_neg hv]
            cases nd with
            | inbound d =>
                dsimp only
                split
                · rfl
                · split
                  · rfl
                  · exact ih _ _ _ _ _ _ _ (fun m hm => getNodeById_mem hm)
            | routing d =>
                dsimp only
                split
                · rfl
                · split
                  · exact ih _ _ _ _ _ _ _ (fun m hm => getNodeById_mem hm)
                  · rfl
            | balancer bd =>
                have hne : ¬ bd.strategy = "random" := by
                  have := List.all_eq_true.mp hnr _ hn
                  simpa using this
                dsimp only
                split
                · rfl
                · split
                  · split
                    · exact ih _ _ _ _ _ _ _ (fun m hm => getNodeById_mem hm)
                    · rfl
                  · simp only [if_neg hne]
                    split
                    · exact ih _ _ _ _ _ _ _ (fun m hm => getNodeById_mem hm)
                    · exact ih _ _ _ _ _ _ _ (fun m hm => getNodeById_mem hm)
            | outboundTerminal d => rfl
            | outboundProxy d =>
                dsimp only
                split
                · split
                  · split
                    · exact ih _ _ _ _ _ _ _ (fun m hm => by
                        cases hm
                        exact getNodeById_mem (by assumption))
                    · rfl
                  · rfl
                · rfl
            | device d => rfl
            | simpleServer d => rfl
            | simpleInternet l => rfl
            | simpleBlock l => rfl
            | simpleRules d => rfl

/-- C2, amended: `runSimulation` is deterministic — two invocations on the
same input, node list, edge list, and RegExp engine return identical
results — provided no balancer node carries the `random` strategy (a
`random` balancer consults `Math.random()`, so its choice varies across
invocations). -/
theorem runSimulation_deterministic_without_random
    (rx : String → String → Bool) (input : SimulationInput)
    (nodes : List GraphNode) (edges : List GraphEdge) (r₁ r₂ : List Nat)
    (hnr : noRandomBalancer nodes = true) :
    runSimulation rx input nodes edges r₁ = runSimulation rx input nodes edges r₂ := by
  unfold runSimulation
  cases hf : nodes.find? (fun n =>
      match n.data with
      | NodeData.inbound d => d.tag = input.inboundTag
      | _ => false) with
  | none => rfl
  | some startNode =>
      exact simLoop_rands_invariant rx input nodes edges hnr _ _ _ _ _ _ r₁ r₂
        (fun m hm => by cases hm; exact List.mem_of_find?_eq_some hf)

/-- Witness for the amended C2 at a concrete graph: the substring-selector
balancer graph carries only a `roundRobin` balancer, and the two runs with
different entropy agree. -/
theorem runSimulation_deterministic_without_random_witness :
    noRandomBalancer substrNodes = true ∧
      runSimulation rxNone scenarioInput substrNodes substrEdges [0] =
        runSimulation rxNone scenarioInput substrNodes substrEdges [7] :=
  ⟨by decide,
    runSimulation_deterministic_without_random rxNone scenarioInput substrNodes
      substrEdges [0] [7] (by decide)⟩

/-- C6: validation never propagates a failure to the caller.  The embedding
of `validateGraph` is a total function — every branch of the source is
defined on every well-typed node/edge list, which is what "never throws"
means here — so the guarded run of `useValidation.ts` always receives and
forwards its result; and a caught internal failure degrades to the empty
valid result `{valid: true, errors: [], warnings: [], infos: []}` instead of
propagating. -/
theorem validation_never_propagates_failure :
    (∀ (nodes : List GraphNode) (edges : List GraphEdge),
        useValidationHandle (Except.ok (validateGraph nodes edges)) =
          validateGraph nodes edges) ∧
      (∀ msg : String, useValidationHandle (Except.error msg) = emptyValidResult) :=
  ⟨fun _ _ => rfl, fun _ => rfl⟩

theorem mapGet_cons (ak : String) (av : List Nat)
    (rest : List (String × List Nat)) (k : String) :
    mapGet ((ak, av) :: rest) k = if ak = k then some av else mapGet rest k := by
  by_cases h : ak = k <;> simp [mapGet, List.find?_cons, h]

theorem mapGet_bucketAdd_self (m : List (String × List Nat)) (key : String) (id : Nat) :
    mapGet (bucketAdd m key id) key = some ((mapGet m key).getD [] ++ [id]) := by
  induction m with
  | nil => simp [bucketAdd, mapGet_cons, mapGet]
  | cons a rest ihm =>
      obtain ⟨ak, av⟩ := a
      by_cases hak : ak = key
      · subst hak
        simp [bucketAdd, mapGet_cons]
      · simp [bucketAdd, hak, mapGet_cons, ihm]

theorem mapGet_bucketAdd_other (m : List (String × List Nat)) (key k : String)
    (id : Nat) (h : k ≠ key) :
    mapGet (bucketAdd m key id) k = mapGet m k := by
  induction m with
  | nil =>
      simp [bucketAdd, mapGet_cons, mapGet]
      exact fun he => h he.symm
  | cons a rest ihm =>
      obtain ⟨ak, av⟩ := a
      by_cases hak : ak = key
      · subst hak
        have hne : ¬ ak = k := fun he => h he.symm
        simp [bucketAdd, mapGet_cons, hne]
      · by_cases hk : ak = k
        · subst hk
          simp [bucketAdd, hak, mapGet_cons]
        · simp [bucketAdd, hak, hk, mapGet_cons, ihm]

/-- A node counted by the duplicate-tag pass under tag `t`. -/
def taggedWith (t : String) (n : GraphNode) : Bool :=
  decide (n.data.tagOf = some t) && decide (¬ t = "") && decide (¬ jsTrim t = "")

theorem dupTagFold_getD (nodes : List GraphNode) (m : List (String × List Nat))
    (t : String) :
    (mapGet (nodes.foldl
        (fun m node =>
          match node.data.tagOf with
          | some tag =>
              if tag ≠ "" && jsTrim tag ≠ "" then bucketAdd m tag node.id else m
          | Option.none => m) m) t).getD [] =
      (mapGet m t).getD [] ++ (nodes.filter (taggedWith t)).map GraphNode.id := by
  induction nodes generalizing m with
  | nil => simp
  | cons n rest ih =>
      rw [List.foldl_cons, ih]
      cases htag : n.data.tagOf with
      | none =>
          have hw : taggedWith t n = false := by simp [taggedWith, htag]
          simp [htag, hw]
      | some tag =>
          by_cases h1 : tag = ""
          · have hw : taggedWith t n = false := by
              simp [taggedWith, htag]
              intro he; rw [he] at h1; exact fun hc => absurd h1 hc
            simp [htag, h1, hw]
          · by_cases h2 : jsTrim tag = ""
            · have hw : taggedWith t n = false := by
                simp [taggedWith, htag]
                intro he _; rw [← he]; exact h2
              simp [htag, h1, h2, hw]
            · by_cases ht : t = tag
              · subst ht
                have hw : taggedWith t n = true := by
                  simp [taggedWith, htag, h1, h2]
                simp [htag, h1, h2, hw, mapGet_bucketAdd_self]
              · have hw : taggedWith t n = false := by
                  simp [taggedWith, htag]
                  intro he; exact absurd he.symm ht
                simp [htag, h1, h2, hw, mapGet_bucketAdd_other _ _ _ _ ht]

theorem two_mem_two_le_length {α : Type} {a b : α} {l : List α} (hab : a ≠ b)
    (ha : a ∈ l) (hb : b ∈ l) : 2 ≤ l.length := by
  induction l with
  | nil => cases ha
  | cons c rest ih =>
      rcases List.mem_cons.mp ha with rfl | ha'
      · rcases List.mem_cons.mp hb with rfl | hb'
        · exact absurd rfl hab
        · have := List.length_pos_of_mem hb'
          simp only [List.length_cons]
          omega
      · rcases List.mem_cons.mp hb with rfl | hb'
        · have := List.length_pos_of_mem ha'
          simp only [List.length_cons]
          omega
        · have := ih ha' hb'
          simp only [List.length_cons]
          omega

theorem mem_dupIssuesOf {m : List (String × List Nat)} {t : String}
    {ids : List Nat} {id : Nat} (hget : mapGet m t = some ids)
    (hlen : 1 < ids.length) (hid : id ∈ ids) (mkMsg : String → String) :
    errIssue id (mkMsg t) ∈ dupIssuesOf m mkMsg := by
  unfold mapGet at hget
  rcases Option.map_eq_some'.mp hget with ⟨kv, hfind, hsnd⟩
  have hkv1 : kv.1 = t := by
    have := List.find?_some hfind
    simpa using this
  have hmem : kv ∈ m := List.mem_of_find?_eq_some hfind
  unfold dupIssuesOf
  rw [List.mem_flatMap]
  refine ⟨kv, hmem, ?_⟩
  rw [hsnd, if_pos (by omega : ids.length > 1), hkv1]
  exact List.mem_map_of_mem _ hid

def dupTagMessage (t : String) : String := "Duplicate tag: \"" ++ t ++ "\""

theorem mem_validateStructure_of_dup {nodes : List GraphNode}
    {edges : List GraphEdge} {x : ValidationIssue}
    (h : x ∈ dupIssuesOf (dupTagMap nodes) dupTagMessage) :
    x ∈ validateStructure nodes edges := by
  have h' : x ∈ dupIssuesOf (dupTagMap nodes)
      (fun tag => "Duplicate tag: \"" ++ tag ++ "\"") := h
  simp only [validateStructure]
  exact List.mem_append_left _ (List.mem_append_left _ (List.mem_append_left _
    (List.mem_append_left _ (List.mem_append_left _ (List.mem_append_left _
    (List.mem_append_left _ (List.mem_append_left _ (List.mem_append_left _
    (List.mem_append_left _ (List.mem_append_left _ h'))))))))))

theorem mem_errors_of_structure_error {nodes : List GraphNode}
    {edges : List GraphEdge} {id : Nat} {msg : String}
    (h : errIssue id msg ∈ validateStructure nodes edges) :
    errIssue id msg ∈ (validateGraph nodes edges).errors := by
  simp only [validateGraph]
  refine List.mem_filter.mpr ⟨?_, by simp [errIssue]⟩
  exact List.mem_append_left _ (List.mem_append_right _ h)

/-- C9, amended: for any graph with two distinct nodes sharing a non-blank
tag `t` (a tag whose trim is nonempty — blank tags are excluded from
duplicate detection and instead produce per-node "requires a tag" errors),
`validateGraph` reports an error-level duplicate-tag issue naming each of
the two node ids. -/
theorem validateGraph_duplicate_tag_both (nodes : List GraphNode)
    (edges : List GraphEdge) (n₁ n₂ : GraphNode) (t : String)
    (h₁ : n₁ ∈ nodes) (h₂ : n₂ ∈ nodes) (hne : n₁ ≠ n₂)
    (ht₁ : n₁.data.tagOf = some t) (ht₂ : n₂.data.tagOf = some t)
    (htv : jsTrim t ≠ "") :
    errIssue n₁.id (dupTagMessage t) ∈ (validateGraph nodes edges).errors ∧
      errIssue n₂.id (dupTagMessage t) ∈ (validateGraph nodes edges).errors := by
  have ht0 : t ≠ "" := fun h => htv (by rw [h]; rfl)
  have hw₁ : taggedWith t n₁ = true := by simp [taggedWith, ht₁, ht0, htv]
  have hw₂ : taggedWith t n₂ = true := by simp [taggedWith, ht₂, ht0, htv]
  have hm₁ : n₁ ∈ nodes.filter (taggedWith t) := List.mem_filter.mpr ⟨h₁, hw₁⟩
  have hm₂ : n₂ ∈ nodes.filter (taggedWith t) := List.mem_filter.mpr ⟨h₂, hw₂⟩
  have hlen : 2 ≤ (nodes.filter (taggedWith t)).length :=
    two_mem_two_le_length hne hm₁ hm₂
  have hbucket : (mapGet (dupTagMap nodes) t).getD [] =
      (nodes.filter (taggedWith t)).map GraphNode.id := by
    have h := dupTagFold_getD nodes [] t
    simpa [dupTagMap, mapGet] using h
  have hsome : mapGet (dupTagMap nodes) t =
      some ((nodes.filter (taggedWith t)).map GraphNode.id) := by
    cases hg : mapGet (dupTagMap nodes) t with
    | none =>
        rw [hg] at hbucket
        simp at hbucket
        exact absurd (hbucket n₁ h₁) (by simp [hw₁])
    | some l =>
        rw [hg] at hbucket
        simp only [Option.getD_some] at hbucket
        exact congrArg some hbucket
  have hlen' : 1 < ((nodes.filter (taggedWith t)).map GraphNode.id).length := by
    simpa using hlen
  constructor
  · exact mem_errors_of_structure_error (mem_validateStructure_of_dup
      (mem_dupIssuesOf hsome hlen' (List.mem_map_of_mem _ hm₁) dupTagMessage))
  · exact mem_errors_of_structure_error (mem_validateStructure_of_dup
      (mem_dupIssuesOf hsome hlen' (List.mem_map_of_mem _ hm₂) dupTagMessage))

/-- Two inbound nodes sharing the (blank) tag `""`. -/
def blankTagNodes : List GraphNode :=
  [ { id := 1, data := NodeData.inbound { tag := "", protocol := InProto.vless, port := 443 } },
    { id := 2, data := NodeData.inbound { tag := "", protocol := InProto.vless, port := 8443 } } ]

/-- C9, counterexample: two nodes sharing the tag `""` produce NO
duplicate-tag error at all (blank tags are skipped by the duplicate pass;
each node only gets its own "requires a tag" error), refuting the claim for
arbitrary shared tags. -/
theorem blank_shared_tag_no_duplicate_error :
    (blankTagNodes.get ⟨0, by decide⟩).data.tagOf = some "" ∧
      (blankTagNodes.get ⟨1, by decide⟩).data.tagOf = some "" ∧
      blankTagNodes.get ⟨0, by decide⟩ ≠ blankTagNodes.get ⟨1, by decide⟩ ∧
      ((validateGraph blankTagNodes []).errors.any
        (fun i => strContains i.message "Duplicate tag")) = false := by
  refine ⟨by decide, by decide, by decide, by decide⟩

/-- Concrete two-node graph sharing the non-blank tag `"x"`. -/
def dupTagNodes : List GraphNode :=
  [ { id := 1, data := NodeData.inbound { tag := "x", protocol := InProto.vless, port := 443 } },
    { id := 2, data := NodeData.inbound { tag := "x", protocol := InProto.vless, port := 8443 } } ]

/-- Witness for the amended C9 on a concrete two-node graph sharing the
non-blank tag `"x"`. -/
theorem validateGraph_duplicate_tag_both_witness :
    errIssue 1 (dupTagMessage "x") ∈ (validateGraph dupTagNodes []).errors ∧
      errIssue 2 (dupTagMessage "x") ∈ (validateGraph dupTagNodes []).errors :=
  validateGraph_duplicate_tag_both dupTagNodes []
    { id := 1, data := NodeData.inbound { tag := "x", protocol := InProto.vless, port := 443 } }
    { id := 2, data := NodeData.inbound { tag := "x", protocol := InProto.vless, port := 8443 } }
    "x" (by decide) (by decide) (by decide) (by decide) (by decide) (by decide)

/-- The inbound stream-settings precedence exactly as the specification words
it: the transport of an incoming cross-group edge when one carries a
transport, else the node's legacy inline transport, else the omitted
raw/none default. -/
def specInboundStream (nodeId : Nat) (d : InboundData) (allEdges : List GraphEdge)
    (m : List (Nat × Option String)) : Option StreamOut :=
  match getIncomingTransport nodeId allEdges m with
  | some t => buildStreamSettings (some t)
  | Option.none =>
      match d.transport with
      | some t => buildStreamSettings (some t)
      | Option.none => Option.none

theorem getIncomingTransport_first_carrying (nodeId : Nat) (edges : List GraphEdge)
    (m : List (Nat × Option String)) :
    getIncomingTransport nodeId edges m =
      (edges.filter fun e => e.target = nodeId && isCrossGroupEdge e m).findSome?
        (fun e => e.data.bind EdgeData.transport) := by
  induction edges with
  | nil => rfl
  | cons e rest ih =>
      simp only [getIncomingTransport, List.filter_cons] at ih ⊢
      by_cases hc : (e.target = nodeId && isCrossGroupEdge e m) = true
      · rw [if_pos hc, List.findSome?_cons, List.findSome?_cons, if_pos hc]
        cases hfe : e.data.bind EdgeData.transport with
        | some t => rfl
        | none => exact ih
      · rw [if_neg hc, List.findSome?_cons, if_neg hc]
        exact ih

/-- C8: in the forward compiler, each compiled inbound entry's stream
settings follow the precedence "incoming cross-group edge transport, else
legacy inline node transport, else omitted raw/none default";
`getIncomingTransport` selects the first incoming cross-group edge that
carries a transport; a `raw` network is serialized as `tcp` on the wire and
the bare default serializes to the omitted block. -/
theorem inbound_stream_precedence :
    (∀ (nodes : List GraphNode) (edges allEdges : List GraphEdge)
        (m : List (Nat × Option String)) (fn : String),
      (buildSingleConfig nodes edges allEdges m fn).config.inbounds =
        some (nodes.filterMap fun node =>
          match node.data with
          | NodeData.inbound d => some (exportInboundEntry node d allEdges m)
          | _ => Option.none)) ∧
    (∀ (node : GraphNode) (d : InboundData) (allEdges : List GraphEdge)
        (m : List (Nat × Option String)),
      (exportInboundEntry node d allEdges m).streamSettings =
        specInboundStream node.id d allEdges m) ∧
    (∀ (nodeId : Nat) (edges : List GraphEdge) (m : List (Nat × Option String)),
      getIncomingTransport nodeId edges m =
        (edges.filter fun e => e.target = nodeId && isCrossGroupEdge e m).findSome?
          (fun e => e.data.bind EdgeData.transport)) ∧
    (∀ t : TransportSettings,
      ((buildStreamSettings (some t)).map StreamOut.network).getD "tcp" =
        (if t.network = Network.raw then "tcp" else t.network.toWire)) ∧
    buildStreamSettings (some defaultTransport) = Option.none := by
  refine ⟨fun _ _ _ _ _ => rfl, ?_, getIncomingTransport_first_carrying, ?_, rfl⟩
  · intro node d allEdges m
    unfold exportInboundEntry specInboundStream
    cases h : getIncomingTransport node.id allEdges m with
    | some t => simp [h, Option.orElse]
    | none =>
        cases hd : d.transport with
        | some t => simp [h, hd, Option.orElse]
        | none => simp [h, hd, Option.orElse, buildStreamSettings]
  · intro t
    obtain ⟨net, sec, ws, gr, xh, tl, re⟩ := t
    cases net <;> cases sec <;>
      simp [buildStreamSettings, Network.toWire, Security.toWire]

/-! ### Import error characterization (C7): preservation lemmas -/

/-- The import-stage preservation relation: the inbound-node slice of the
node list is unchanged and the warning list only grows at the end. -/
def impPreserves (st st' : ImpState) : Prop :=
  st'.nodes.filter isInboundNode = st.nodes.filter isInboundNode ∧
  ∃ extra, st'.warnings = st.warnings ++ extra

theorem impPreserves_refl (st : ImpState) : impPreserves st st :=
  ⟨rfl, [], (List.append_nil _).symm⟩

theorem impPreserves_trans {a b c : ImpState} (h1 : impPreserves a b)
    (h2 : impPreserves b c) : impPreserves a c := by
  obtain ⟨hn1, e1, hw1⟩ := h1
  obtain ⟨hn2, e2, hw2⟩ := h2
  exact ⟨hn2.trans hn1, e1 ++ e2, by rw [hw2, hw1, List.append_assoc]⟩

theorem impPreserves_of_eq {a b : ImpState} (hn : b.nodes = a.nodes)
    (hw : b.warnings = a.warnings) : impPreserves a b :=
  ⟨by rw [hn], [], by rw [hw, List.append_nil]⟩

theorem foldl_impPreserves {α : Type _} {f : ImpState → α → ImpState}
    (hf : ∀ st a, impPreserves st (f st a)) :
    ∀ (l : List α) (st : ImpState), impPreserves st (l.foldl f st) := by
  intro l
  induction l with
  | nil => intro st; exact impPreserves_refl st
  | cons x rest ih =>
      intro st
      rw [List.foldl_cons]
      exact impPreserves_trans (hf st x) (ih (f st x))

theorem foldl_preserves_nodes_warnings {α : Type} (f : ImpState → α → ImpState)
    (hf : ∀ st x, (f st x).nodes = st.nodes ∧ (f st x).warnings = st.warnings)
    (l : List α) (st : ImpState) :
    (l.foldl f st).nodes = st.nodes ∧ (l.foldl f st).warnings = st.warnings := by
  induction l generalizing st with
  | nil => exact ⟨rfl, rfl⟩
  | cons x rest ih =>
      rw [List.foldl_cons]
      obtain ⟨ihn, ihw⟩ := ih (f st x)
      obtain ⟨hn, hw⟩ := hf st x
      exact ⟨ihn.trans hn, ihw.trans hw⟩

theorem balancerEdgeScanStep_nodes_warnings (nodeId : Nat) (pat : String)
    (st : ImpState) (kv : String × Nat) :
    (balancerEdgeScanStep nodeId pat st kv).nodes = st.nodes ∧
      (balancerEdgeScanStep nodeId pat st kv).warnings = st.warnings := by
  unfold balancerEdgeScanStep
  split
  · split
    · split
      · exact ⟨rfl, rfl⟩
      · exact ⟨rfl, rfl⟩
    · exact ⟨rfl, rfl⟩
  · exact ⟨rfl, rfl⟩

theorem impBalancerStep_preserves (st : ImpState) (bal : XBalancer)
    (sel : List String) : impPreserves st (impBalancerStep st bal sel) := by
  have hstep : ∀ (nodeId : Nat) (st' : ImpState) (pat : String),
      impPreserves st'
        (st'.tagToNodeId.foldl (balancerEdgeScanStep nodeId pat) st') := by
    intro nodeId st' pat
    obtain ⟨hn, hw⟩ := foldl_preserves_nodes_warnings
      (balancerEdgeScanStep nodeId pat)
      (fun s kv => balancerEdgeScanStep_nodes_warnings nodeId pat s kv)
      st'.tagToNodeId st'
    exact impPreserves_of_eq hn hw
  have houter : ∀ (nodeId : Nat) (st' : ImpState),
      impPreserves st'
        (sel.foldl
          (fun (s : ImpState) pat =>
            s.tagToNodeId.foldl (balancerEdgeScanStep nodeId pat) s) st') :=
    fun nodeId st' =>
      foldl_impPreserves (fun s pat => hstep nodeId s pat) sel st'
  refine impPreserves_trans ?_ (houter st.ctr
    { st with
        ctr := st.ctr + 1
        tagToNodeId := mapSet st.tagToNodeId bal.tag st.ctr
        nodes := st.nodes ++
          [{ id := st.ctr
             data := NodeData.balancer
               { tag := bal.tag
                 strategy := jsOrStr bal.strategy "random"
                 selector := sel } }] })
  constructor
  · show (st.nodes ++ [_]).filter isInboundNode = st.nodes.filter isInboundNode
    rw [List.filter_append]
    simp [isInboundNode, NodeData.nodeType]
  · exact ⟨[], (List.append_nil _).symm⟩

theorem impOutboundStep_preserves (st : ImpState) (ob : XOutbound) :
    impPreserves st (impOutboundStep st ob) := by
  unfold impOutboundStep
  constructor
  · show (st.nodes ++ [_]).filter isInboundNode = st.nodes.filter isInboundNode
    rw [List.filter_append]
    by_cases h : isTerminalProto (jsOrStr (some ob.protocol) "freedom") = true
    · simp [h, isInboundNode, NodeData.nodeType]
    · simp [h, isInboundNode, NodeData.nodeType]
  · exact ⟨[], (List.append_nil _).symm⟩

theorem impOutbounds_preserves (obs : List XOutbound) (st : ImpState) :
    impPreserves st (impOutbounds obs st) :=
  foldl_impPreserves impOutboundStep_preserves obs st

theorem impBalancers_ok (bals : List XBalancer)
    (h : ∀ b ∈ bals, b.selector.isSome = true) :
    ∀ st : ImpState, ∃ st', impBalancers bals st = Except.ok st' ∧
      impPreserves st st' := by
  induction bals with
  | nil => intro st; exact ⟨st, rfl, impPreserves_refl st⟩
  | cons b bs ih =>
      intro st
      obtain ⟨sel, hb⟩ := Option.isSome_iff_exists.mp (h b (List.mem_cons_self b bs))
      obtain ⟨st', hok, hpres⟩ :=
        ih (fun b' hb' => h b' (List.mem_cons_of_mem b hb')) (impBalancerStep st b sel)
      refine ⟨st', ?_, impPreserves_trans (impBalancerStep_preserves st b sel) hpres⟩
      show List.foldlM _ st (b :: bs) = Except.ok st'
      rw [List.foldlM_cons, hb]
      exact hok

theorem ruleInEdges_preserves (routeNodeId : Nat) (it : Option (List String))
    (st : ImpState) : impPreserves st (ruleInEdges routeNodeId it st) := by
  unfold ruleInEdges
  match it with
  | Option.none => exact impPreserves_refl st
  | some inTags =>
      refine foldl_impPreserves (fun s inTag => ?_) inTags st
      dsimp only
      split
      · exact impPreserves_of_eq rfl rfl
      · exact impPreserves_refl s

theorem ruleOutEdge_preserves (i routeNodeId : Nat) (ot : Option String)
    (st : ImpState) : impPreserves st (ruleOutEdge i routeNodeId ot st) := by
  unfold ruleOutEdge
  split
  · split
    · exact impPreserves_of_eq rfl rfl
    · exact ⟨rfl, [_], rfl⟩
  · exact impPreserves_refl st

theorem ruleBalEdge_preserves (i routeNodeId : Nat) (bt : Option String)
    (st : ImpState) : impPreserves st (ruleBalEdge i routeNodeId bt st) := by
  unfold ruleBalEdge
  split
  · split
    · exact impPreserves_of_eq rfl rfl
    · exact ⟨rfl, [_], rfl⟩
  · exact impPreserves_refl st

theorem ruleCollapsed_preserves (rule : XRule) (st : ImpState) :
    impPreserves st (ruleCollapsed rule st) := by
  unfold ruleCollapsed
  split
  · refine foldl_impPreserves (fun s inTag => ?_) _ st
    dsimp only
    split
    · exact impPreserves_of_eq rfl rfl
    · exact impPreserves_refl s
  · exact impPreserves_refl st

theorem impRuleStep_preserves (crn : Bool) (st : ImpState) (ir : Nat × XRule) :
    impPreserves st (impRuleStep crn st ir) := by
  unfold impRuleStep
  split
  · refine impPreserves_trans (b :=
      { st with
          ctr := st.ctr + 1
          nodes := st.nodes ++
            [{ id := st.ctr, data := NodeData.routing (parseRoutingRule ir.2 ir.1) }] })
      ?_ ?_
    · constructor
      · show (st.nodes ++ [_]).filter isInboundNode = st.nodes.filter isInboundNode
        rw [List.filter_append]
        simp [isInboundNode, NodeData.nodeType]
      · exact ⟨[], (List.append_nil _).symm⟩
    · exact impPreserves_trans
        (impPreserves_trans (ruleInEdges_preserves _ _ _) (ruleOutEdge_preserves _ _ _ _))
        (ruleBalEdge_preserves _ _ _ _)
  · exact ruleCollapsed_preserves ir.2 st

theorem impRules_preserves (rules : List XRule) (crn : Bool) (st : ImpState) :
    impPreserves st (impRules rules crn st) :=
  foldl_impPreserves (impRuleStep_preserves crn) rules.enum st

theorem impInboundStep_unknown {ib : XInbound}
    (h : knownInboundProto ib.protocol = false) (st : ImpState) :
    impInboundStep st ib =
      { st with warnings := st.warnings ++ [unknownProtoWarning ib.protocol] } := by
  unfold impInboundStep
  rw [if_pos]
  rw [h]
  rfl

theorem impInboundStep_known {ib : XInbound}
    (h : knownInboundProto ib.protocol = true) (st : ImpState) :
    impInboundStep st ib =
      { st with
          ctr := if ib.tag = "" then st.ctr + 2 else st.ctr + 1
          tagToNodeId := mapSet st.tagToNodeId
            (parseInbound ib ("input-" ++ toString (st.ctr + 1))).tag st.ctr
          nodes := st.nodes ++
            [{ id := st.ctr
               data := NodeData.inbound
                 (parseInbound ib ("input-" ++ toString (st.ctr + 1))) }] } := by
  unfold impInboundStep
  rw [if_neg]
  rw [h]
  simp

theorem impInbounds_chars (ibs : List XInbound) :
    ∀ st : ImpState,
      ((impInbounds ibs st).nodes.filter isInboundNode).length =
          (st.nodes.filter isInboundNode).length +
            (ibs.filter fun ib => knownInboundProto ib.protocol).length ∧
      ∃ extra, (impInbounds ibs st).warnings = st.warnings ++ extra ∧
        ∀ ib ∈ ibs, knownInboundProto ib.protocol = false →
          unknownProtoWarning ib.protocol ∈ extra := by
  induction ibs with
  | nil =>
      intro st
      refine ⟨by simp [impInbounds], [], by simp [impInbounds], by simp⟩
  | cons ib rest ih =>
      intro st
      have hcons : impInbounds (ib :: rest) st = impInbounds rest (impInboundStep st ib) := by
        unfold impInbounds
        rw [List.foldl_cons]
      cases hk : knownInboundProto ib.protocol with
      | false =>
          rw [hcons, impInboundStep_unknown hk]
          obtain ⟨hlen, extra, hw, hmem⟩ :=
            ih { st with warnings := st.warnings ++ [unknownProtoWarning ib.protocol] }
          refine ⟨?_, unknownProtoWarning ib.protocol :: extra, ?_, ?_⟩
          · rw [hlen]
            simp [List.filter_cons, hk]
          · rw [hw]
            simp
          · intro ib' hmem' hk'
            rcases List.mem_cons.mp hmem' with rfl | h'
            · exact List.mem_cons_self _ _
            · exact List.mem_cons_of_mem _ (hmem ib' h' hk')
      | true =>
          rw [hcons, impInboundStep_known hk]
          obtain ⟨hlen, extra, hw, hmem⟩ := ih
            { st with
                ctr := if ib.tag = "" then st.ctr + 2 else st.ctr + 1
                tagToNodeId := mapSet st.tagToNodeId
                  (parseInbound ib ("input-" ++ toString (st.ctr + 1))).tag st.ctr
                nodes := st.nodes ++
                  [{ id := st.ctr
                     data := NodeData.inbound
                       (parseInbound ib ("input-" ++ toString (st.ctr + 1))) }] }
          refine ⟨?_, extra, hw, ?_⟩
          · rw [hlen]
            dsimp only
            rw [List.filter_append]
            simp [isInboundNode, NodeData.nodeType, List.filter_cons, hk]
            omega
          · intro ib' hmem' hk'
            rcases List.mem_cons.mp hmem' with rfl | h'
            · rw [hk] at hk'; cases hk'
            · exact hmem ib' h' hk'

/-- C7, amended: `importXrayConfig` throws "Invalid JSON" exactly on an
unparseable input, throws "Invalid xray config" when the document has
neither an `inbounds` nor an `outbounds` key, and — provided additionally
that every balancer entry carries a `selector` array (a selectorless
balancer throws a TypeError even when the top-level keys are present) —
otherwise returns a structured result whose inbound count is the number of
recognised-protocol inbounds and whose summary warnings record every
skipped unknown-protocol inbound. -/
theorem importXrayConfig_chars :
    (∀ opts, importXrayConfig Option.none opts =
        Except.error "Invalid JSON: could not parse the file.") ∧
    (∀ cfg opts, cfg.inbounds = Option.none → cfg.outbounds = Option.none →
        importXrayConfig (some cfg) opts =
          Except.error "Invalid xray config: must have inbounds or outbounds.") ∧
    (∀ cfg opts, (cfg.inbounds.isSome || cfg.outbounds.isSome) = true →
        (∀ b ∈ (cfg.routing.bind RoutingOut.balancers).getD [],
          b.selector.isSome = true) →
        ∃ res, importXrayConfig (some cfg) opts = Except.ok res ∧
          res.summary.inboundCount =
            ((cfg.inbounds.getD []).filter fun ib =>
              knownInboundProto ib.protocol).length ∧
          ∀ ib ∈ cfg.inbounds.getD [], knownInboundProto ib.protocol = false →
            unknownProtoWarning ib.protocol ∈ res.summary.warnings) := by
  refine ⟨fun opts => rfl, ?_, ?_⟩
  · intro cfg opts h1 h2
    simp [importXrayConfig, h1, h2]
  · intro cfg opts hsome hsel
    have hcond : (cfg.inbounds.isNone && cfg.outbounds.isNone) = false := by
      cases hi : cfg.inbounds <;> cases ho : cfg.outbounds <;> simp_all
    obtain ⟨st', hok, hpres⟩ := impBalancers_ok _ hsel
      (impOutbounds (cfg.outbounds.getD [])
        (impInbounds (cfg.inbounds.getD []) {}))
    obtain ⟨hlen, extra, hw, hmem⟩ := impInbounds_chars (cfg.inbounds.getD []) {}
    simp only [importXrayConfig, hcond, Bool.false_eq_true, if_false]
    rw [hok]
    dsimp only
    have hIf : ∀ (c : Prop) (inst : Decidable c) (s : ImpState) (w : List String),
        impPreserves s (if c then { s with warnings := s.warnings ++ w } else s) := by
      intro c inst s w
      split
      · exact ⟨rfl, w, rfl⟩
      · exact impPreserves_refl s
    have p : impPreserves (impInbounds (cfg.inbounds.getD []) {})
        (if ((cfg.routing.map RoutingOut.rules).getD []).any (fun r =>
              match normStr r.type with
              | some t => t ≠ "field"
              | Option.none => false) then
          { impRules ((cfg.routing.map RoutingOut.rules).getD [])
              opts.createRoutingNodes st' with
            warnings := (impRules ((cfg.routing.map RoutingOut.rules).getD [])
              opts.createRoutingNodes st').warnings ++
                ["Advanced routing rule types may need manual adjustment"] }
        else impRules ((cfg.routing.map RoutingOut.rules).getD [])
          opts.createRoutingNodes st') :=
      impPreserves_trans (impOutbounds_preserves _ _)
        (impPreserves_trans hpres
          (impPreserves_trans (impRules_preserves _ _ _) (hIf _ _ _ _)))
    obtain ⟨pn, pextra, pw⟩ := p
    refine ⟨_, rfl, ?_, ?_⟩
    · dsimp only
      rw [pn, hlen]
      simp
    · intro ib hib hk
      dsimp only
      rw [pw]
      refine List.mem_append_left _ ?_
      rw [hw]
      exact List.mem_append_right _ (hmem ib hib hk)

/-- A document that parses and carries an `outbounds` key, yet still makes
`importXrayConfig` throw: its single balancer has no selector array. -/
def selectorlessRouting : RoutingOut :=
  { rules := [], balancers := some [{ tag := "b" }] }

def selectorlessDoc : XrayConfigDoc :=
  { outbounds := some [], routing := some selectorlessRouting }

/-- C7, counterexample: the claim says only unparseable JSON or a document
with neither `inbounds` nor `outbounds` throws; `selectorlessDoc` has an
`outbounds` key yet `importXrayConfig` throws a TypeError, because the
source iterates `balancer.selector` without a guard. -/
theorem import_throws_despite_outbounds :
    selectorlessDoc.outbounds.isSome = true ∧
      importXrayConfig (some selectorlessDoc) {} =
        Except.error "TypeError: balancer.selector is not iterable" :=
  ⟨rfl, rfl⟩

/-- A document exercising the success branch of the amended
characterization: one recognised inbound, one unrecognised (skipped with a
warning), and a balancer whose selector is present. -/
def mixedProtoRouting : RoutingOut :=
  { rules := [], balancers := some [{ tag := "b", selector := some ["out"] }] }

def mixedProtoDoc : XrayConfigDoc :=
  { inbounds := some
      [{ tag := "in1", protocol := "vless", port := some 443 },
       { tag := "in2", protocol := "wireguard", port := some 51820 }]
    outbounds := some [{ tag := "out1", protocol := "freedom" }]
    routing := some mixedProtoRouting }

/-- C7, witness: the success branch of the amended characterization at a
concrete document. -/
theorem importXrayConfig_chars_witness :
    ∃ res, importXrayConfig (some mixedProtoDoc) {} = Except.ok res ∧
      res.summary.inboundCount =
        ((mixedProtoDoc.inbounds.getD []).filter fun ib =>
          knownInboundProto ib.protocol).length ∧
      ∀ ib ∈ mixedProtoDoc.inbounds.getD [],
        knownInboundProto ib.protocol = false →
          unknownProtoWarning ib.protocol ∈ res.summary.warnings :=
  importXrayConfig_chars.2.2 mixedProtoDoc {} (by decide) (by decide)
